import Mathlib

set_option maxHeartbeats 1000000

/-!
Verification of the WebM/EBML metadata extractor (`src/ebml/webm.rs`) and the
zero-copy shared-buffer view (`src/partial_vec.rs`).

Bytes are modelled as natural numbers (each byte value below 256); byte buffers
are lists of naturals and cursor positions are explicit indices.  Fallible Rust
code returning `Result` is embedded as `Except`; a Rust `panic!`/`assert!` in
the buffer-view constructors is embedded as `Option.none`.

The generic EBML primitives (`VInt` decoding, `next_element_header`,
`travel_while`, `find_element_by_id`, `get_as_u64`, `get_as_f64`,
`parse_ebml_doc_type`) and the byte-source (`Load`) abstraction live outside
the repository sources; they are modelled from the specification and each such
definition carries a doc comment starting with `Modelled from the spec:`.
-/

/-! ### Error taxonomy (src/ebml/webm.rs lines 34-47 and crate error types) -/

/-- `ParseVIntFailed` of the external `vint` module: a variable-length integer
either needs more bytes or is malformed. -/
inductive ParseVIntFailed where
  | Need (n : Nat)
  | InvalidVInt
deriving DecidableEq, Repr

/-- `ParseEBMLFailed` of the external `ebml::element` module. -/
inductive ParseEBMLFailed where
  | Need (n : Nat)
  | NotEBMLFile
  | InvalidEBMLFile
deriving DecidableEq, Repr

/-- `ParseWebmFailed` (src/ebml/webm.rs lines 34-47).  The
`InvalidWebmFile(Box<dyn Error>)` payload is dropped in the model. -/
inductive ParseWebmFailed where
  | Need (n : Nat)
  | NotWebmFile
  | InvalidWebmFile
  | InvalidSeekEntry
deriving DecidableEq, Repr

/-- The crate-level `ParsingError` (recoverable need / fatal failure). -/
inductive ParsingError where
  | Need (n : Nat)
  | Failed (s : String)
deriving DecidableEq, Repr

/-- The crate-level `ParsedError` returned by `parse_webm` once the byte
source can no longer make progress. -/
inductive ParsedError where
  | NoEnoughBytes
  | Failed (s : String)
deriving DecidableEq, Repr

/-- Decidable equality for `Except`, so results can be compared by `decide`. -/
instance {e a : Type} [DecidableEq e] [DecidableEq a] : DecidableEq (Except e a) := fun x y =>
  match x, y with
  | .error e1, .error e2 =>
    if h : e1 = e2 then isTrue (by rw [h]) else isFalse (by simp [h])
  | .error _, .ok _ => isFalse (by simp)
  | .ok _, .error _ => isFalse (by simp)
  | .ok a1, .ok a2 =>
    if h : a1 = a2 then isTrue (by rw [h]) else isFalse (by simp [h])

/-- `From<ParseVIntFailed> for ParseWebmFailed` (src/ebml/webm.rs lines 544-551). -/
def vintToWebm : ParseVIntFailed → ParseWebmFailed
  | .Need n => .Need n
  | .InvalidVInt => .InvalidWebmFile

/-- `From<ParseVIntFailed> for ParsingError` (src/ebml/webm.rs lines 553-560). -/
def vintToParsing : ParseVIntFailed → ParsingError
  | .Need n => .Need n
  | .InvalidVInt => .Failed "invalid vint"

/-- `From<ParseEBMLFailed> for ParseWebmFailed` (src/ebml/webm.rs lines 523-531). -/
def ebmlToWebm : ParseEBMLFailed → ParseWebmFailed
  | .Need n => .Need n
  | .NotEBMLFile => .NotWebmFile
  | .InvalidEBMLFile => .InvalidWebmFile

/-- `From<ParseEBMLFailed> for ParsingError` (src/ebml/webm.rs lines 533-542). -/
def ebmlToParsing : ParseEBMLFailed → ParsingError
  | .Need n => .Need n
  | .NotEBMLFile => .Failed "not an EBML file"
  | .InvalidEBMLFile => .Failed "invalid EBML file"

/-- `From<ParseWebmFailed> for ParsingError` (src/ebml/webm.rs lines 562-571). -/
def webmToParsing : ParseWebmFailed → ParsingError
  | .Need n => .Need n
  | .NotWebmFile => .Failed "not an WEBM file"
  | .InvalidWebmFile => .Failed "invalid WEBM file"
  | .InvalidSeekEntry => .Failed "invalid seek entry"

/-! ### Byte-buffer helpers -/

/-- The sub-slice `input[pos .. pos+n]` (clamped at the end of the buffer,
callers check bounds first). -/
def sliceBytes (input : List Nat) (pos n : Nat) : List Nat :=
  (input.drop pos).take n

/-- Big-endian interpretation of a byte list as an unsigned integer. -/
def beBytes : List Nat → Nat
  | [] => 0
  | b :: rest => b * 256 ^ rest.length + beBytes rest

/-! ### VInt decoding

Modelled from the spec: "VInt (variable-length integer): the format's
self-delimiting integer encoding used for element IDs and sizes" — the number
of leading zero bits of the first byte determines the total width (1-8 bytes);
IDs keep the marker bit, sizes strip it. -/

/-- Width in bytes of a VInt whose first byte is `b` (leading-zero count plus
one); a zero first byte is rejected by the decoder before this is used. -/
def vintLen (b : Nat) : Nat :=
  if 128 ≤ b then 1
  else if 64 ≤ b then 2
  else if 32 ≤ b then 3
  else if 16 ≤ b then 4
  else if 8 ≤ b then 5
  else if 4 ≤ b then 6
  else if 2 ≤ b then 7
  else 8

/-- Modelled from the spec: `VInt::as_u64_with_marker` — decode a VInt keeping
the marker bit (used for element IDs), returning the value and the position
after it, or how many further bytes are required. -/
def vintWithMarker (input : List Nat) (pos : Nat) :
    Except ParseVIntFailed (Nat × Nat) :=
  if input.length ≤ pos then .error (.Need 1)
  else
    let b := input.getD pos 0
    if b = 0 then .error .InvalidVInt
    else
      let len := vintLen b
      if input.length < pos + len then .error (.Need (pos + len - input.length))
      else .ok (beBytes (sliceBytes input pos len), pos + len)

/-- Modelled from the spec: `VInt::as_usize` — decode a VInt and strip the
marker bit (used for data-size fields). -/
def vintSize (input : List Nat) (pos : Nat) : Except ParseVIntFailed (Nat × Nat) :=
  match vintWithMarker input pos with
  | .error e => .error e
  | .ok (v, p') => .ok (v - 2 ^ (7 * (p' - pos)), p')

/-! ### Element headers and tree walking -/

/-- `ElementHeader` (external `ebml::element`): id, bytes consumed by the
id+size fields, and declared payload length. -/
structure ElementHeader where
  id : Nat
  header_size : Nat
  data_size : Nat
deriving DecidableEq, Repr

/-- Modelled from the spec: `next_element_header` — "decode a full element
header (ID, header length, payload length)". -/
def nextElementHeader (input : List Nat) (pos : Nat) :
    Except ParseEBMLFailed (ElementHeader × Nat) :=
  match vintWithMarker input pos with
  | .error .InvalidVInt => .error .InvalidEBMLFile
  | .error (.Need n) => .error (.Need n)
  | .ok (id, p1) =>
    match vintSize input p1 with
    | .error .InvalidVInt => .error .InvalidEBMLFile
    | .error (.Need n) => .error (.Need n)
    | .ok (ds, p2) => .ok (⟨id, p2 - pos, ds⟩, p2)

/-- Modelled from the spec: `travel_while` — "walk forward over sibling
elements until a predicate on the header is satisfied or input is exhausted":
elements whose header satisfies `pred` are skipped whole; the first header
failing `pred` is returned with the cursor just after that header; running out
of buffered bytes reports the shortfall.  Fuel bounds the recursion; the
wrapper supplies more fuel than any buffer can consume. -/
def travelWhileF : Nat → List Nat → (ElementHeader → Bool) → Nat →
    Except ParseEBMLFailed (ElementHeader × Nat)
  | 0, _, _, _ => .error (.Need 1)
  | fuel + 1, input, pred, pos =>
    match nextElementHeader input pos with
    | .error e => .error e
    | .ok (hd, p1) =>
      if pred hd then
        if input.length - p1 < hd.data_size then
          .error (.Need (hd.data_size - (input.length - p1)))
        else travelWhileF fuel input pred (p1 + hd.data_size)
      else .ok (hd, p1)

/-- `travel_while` entry point (each skipped element consumes at least two
bytes, so `input.length + 1` units of fuel can never run out). -/
def travel_while (input : List Nat) (pred : ElementHeader → Bool) (pos : Nat) :
    Except ParseEBMLFailed (ElementHeader × Nat) :=
  travelWhileF (input.length + 1) input pred pos

/-- Modelled from the spec: `find_element_by_id` — scan sibling elements for a
given ID; clean exhaustion of the buffer reports a not-found condition
"distinct from a structural parse failure". -/
def findByIdF : Nat → List Nat → Nat → Nat → Except ParsingError (ElementHeader × Nat)
  | 0, _, _, _ => .error (.Failed "element not found")
  | fuel + 1, input, target, pos =>
    if input.length ≤ pos then .error (.Failed "element not found")
    else
      match nextElementHeader input pos with
      | .error e => .error (ebmlToParsing e)
      | .ok (hd, p1) =>
        if hd.id = target then .ok (hd, p1)
        else if input.length - p1 < hd.data_size then
          .error (.Need (hd.data_size - (input.length - p1)))
        else findByIdF fuel input target (p1 + hd.data_size)

/-- `find_element_by_id` entry point. -/
def find_element_by_id (input : List Nat) (target : Nat) (pos : Nat) :
    Except ParsingError (ElementHeader × Nat) :=
  findByIdF (input.length + 1) input target pos

/-! ### Leaf value decoding -/

/-- Modelled from the spec: `get_as_u64` — decode an unsigned integer of the
element's declared byte width (1-8 bytes, big-endian); any other width is a
per-field decode failure that leaves the field at its previous value.  Returns
the decoded value (if any) and the cursor position afterwards. -/
def getAsU64 (input : List Nat) (pos size : Nat) : Option Nat × Nat :=
  if 1 ≤ size ∧ size ≤ 8 ∧ pos + size ≤ input.length then
    (some (beBytes (sliceBytes input pos size)), pos + size)
  else (none, pos + min size (input.length - pos))

/-- IEEE-754 binary64 interpretation of eight big-endian bytes as an exact
rational; non-finite encodings (exponent field all ones) decode to `none`. -/
def decodeF64Bytes (bs : List Nat) : Option ℚ :=
  let bits : Nat := beBytes bs
  let sign : Nat := bits / 2 ^ 63
  let e : Nat := bits / 2 ^ 52 % 2 ^ 11
  let m : Nat := bits % 2 ^ 52
  if e = 2047 then none
  else
    let mag : ℚ :=
      if e = 0 then (m : ℚ) * (2 : ℚ) ^ (-(1074 : ℤ))
      else ((2 ^ 52 + m : ℚ)) * (2 : ℚ) ^ ((e : ℤ) - 1075)
    some (if sign = 1 then -mag else mag)

/-- IEEE-754 binary32 interpretation of four big-endian bytes as an exact
rational; non-finite encodings decode to `none`. -/
def decodeF32Bytes (bs : List Nat) : Option ℚ :=
  let bits : Nat := beBytes bs
  let sign : Nat := bits / 2 ^ 31
  let e : Nat := bits / 2 ^ 23 % 2 ^ 8
  let m : Nat := bits % 2 ^ 23
  if e = 255 then none
  else
    let mag : ℚ :=
      if e = 0 then (m : ℚ) * (2 : ℚ) ^ (-(149 : ℤ))
      else ((2 ^ 23 + m : ℚ)) * (2 : ℚ) ^ ((e : ℤ) - 150)
    some (if sign = 1 then -mag else mag)

/-- Modelled from the spec: `get_as_f64` — "Duration (stored as a
floating-point element, width 4 or 8 bytes)"; any other width is a per-field
decode failure.  Float values are modelled as exact rationals. -/
def getAsF64 (input : List Nat) (pos size : Nat) : Option ℚ × Nat :=
  if size = 8 ∧ pos + 8 ≤ input.length then
    (decodeF64Bytes (sliceBytes input pos 8), pos + 8)
  else if size = 4 ∧ pos + 4 ≤ input.length then
    (decodeF32Bytes (sliceBytes input pos 4), pos + 4)
  else (none, pos + min size (input.length - pos))

/-! ### Element IDs (src/ebml/webm.rs lines 427-506 and spec section 6) -/

/-- `TopElementId::Segment` (external enum; spec section 6). -/
def SEGMENT_ID : Nat := 0x18538067

/-- `SegmentId` discriminants (src/ebml/webm.rs lines 427-434). -/
def SEEK_HEAD_ID : Nat := 0x114D9B74

def INFO_ID : Nat := 0x1549A966

def TRACKS_ID : Nat := 0x1654AE6B

/-- `InfoId` discriminants (src/ebml/webm.rs lines 436-441). -/
def TIMESTAMP_SCALE_ID : Nat := 0x2AD7B1

def DURATION_ID : Nat := 0x4489

def DATE_ID : Nat := 0x4461

/-- `TracksId` discriminants (src/ebml/webm.rs lines 443-450). -/
def TRACK_ENTRY_ID : Nat := 0xAE

def TRACK_TYPE_ID : Nat := 0x83

def VIDEO_TRACK_ID : Nat := 0xE0

def PIXEL_WIDTH_ID : Nat := 0xB0

def PIXEL_HEIGHT_ID : Nat := 0xBA

/-- `SeekHeadId` discriminants (src/ebml/webm.rs lines 480-485). -/
def SEEK_ELEMENT_ID : Nat := 0x4DBB

def SEEK_ID_ID : Nat := 0x53AB

def SEEK_POSITION_ID : Nat := 0x53AC

/-- Modelled from the spec: the fixed global filler IDs, "generic filler
elements Void and Crc32 (fixed global IDs)" — the standard EBML values. -/
def VOID_ID : Nat := 0xEC

def CRC32_ID : Nat := 0xBF

/-- Modelled from the spec: `INVALID_ELEMENT_ID` of `ebml::element`; the source
comments "0xFF is an invalid ID" (src/ebml/webm.rs line 366). -/
def INVALID_ELEMENT_ID : Nat := 0xFF

/-- `TryFrom<u64> for TracksId` succeeds exactly on the five discriminants
(src/ebml/webm.rs lines 452-465). -/
def isTracksId (id : Nat) : Bool :=
  id = TRACK_ENTRY_ID ∨ id = TRACK_TYPE_ID ∨ id = VIDEO_TRACK_ID ∨
    id = PIXEL_WIDTH_ID ∨ id = PIXEL_HEIGHT_ID

/-! ### Result data model (src/ebml/webm.rs lines 27-32, 144-148, 227-238) -/

/-- `TracksInfo` (src/ebml/webm.rs lines 144-148). -/
structure TracksInfo where
  width : Nat
  height : Nat
deriving DecidableEq, Repr

instance : Inhabited TracksInfo := ⟨⟨0, 0⟩⟩

/-- `VideoTrackInfo` (src/ebml/webm.rs lines 227-231). -/
structure VideoTrackInfo where
  width : Nat
  height : Nat
deriving DecidableEq, Repr

instance : Inhabited VideoTrackInfo := ⟨⟨0, 0⟩⟩

/-- `SegmentInfo` (src/ebml/webm.rs lines 233-238): duration in nanoseconds
(an `f64`, modelled as an exact rational) and the creation date
(`DateTime<Utc>`, modelled as signed nanoseconds since the Unix epoch; the
`Default` date is the epoch itself, i.e. zero). -/
structure SegmentInfo where
  duration : ℚ
  date : ℤ
deriving DecidableEq, Repr

instance : Inhabited SegmentInfo := ⟨⟨0, 0⟩⟩

/-- `EbmlFileInfo` (src/ebml/webm.rs lines 27-32). -/
structure EbmlFileInfo where
  doc_type : String
  segment_info : SegmentInfo
  tracks_info : TracksInfo
deriving DecidableEq, Repr

instance : Inhabited EbmlFileInfo := ⟨⟨"", default, default⟩⟩

/-! ### Tracks extractor (src/ebml/webm.rs lines 150-231) -/

/-- `parse_video_track` (src/ebml/webm.rs lines 206-225): locate `PixelWidth`
scanning from the start, then reset the cursor to position zero and locate
`PixelHeight`; a field whose value fails to decode keeps its zero default. -/
def parse_video_track (input : List Nat) : Except ParseWebmFailed VideoTrackInfo :=
  match travel_while input (fun h => h.id ≠ PIXEL_WIDTH_ID) 0 with
  | .error e => .error (ebmlToWebm e)
  | .ok (hd, p1) =>
    let width := ((getAsU64 input p1 hd.data_size).1).getD 0
    match travel_while input (fun h => h.id ≠ PIXEL_HEIGHT_ID) 0 with
    | .error e => .error (ebmlToWebm e)
    | .ok (hd2, q1) =>
      let height := ((getAsU64 input q1 hd2.data_size).1).getD 0
      .ok ⟨width, height⟩

/-- Loop body of `parse_track` (src/ebml/webm.rs lines 187-202): iterate the
sub-elements of the element handed over by `parse_tracks_info`, skipping ids
that are not `TracksId`s, and parse the payload of the first `VideoTrack`
(0xE0) child as a video track.  The source slices `input[pos..pos+data_size]`
(which panics if the child payload overruns the buffer; the model clamps, and
every input considered in the theorems below stays in bounds). -/
def parseTrackF : Nat → List Nat → Nat → Except ParseWebmFailed (Option VideoTrackInfo)
  | 0, _, _ => .error .InvalidWebmFile
  | fuel + 1, input, pos =>
    if input.length ≤ pos then .ok none
    else
      match nextElementHeader input pos with
      | .error e => .error (ebmlToWebm e)
      | .ok (hd, p1) =>
        if isTracksId hd.id then
          if hd.id = VIDEO_TRACK_ID then
            match parse_video_track (sliceBytes input p1 hd.data_size) with
            | .error e => .error e
            | .ok v => .ok (some v)
          else parseTrackF fuel input (p1 + hd.data_size)
        else parseTrackF fuel input (p1 + hd.data_size)

/-- `parse_track` (src/ebml/webm.rs lines 184-204). -/
def parse_track (input : List Nat) : Except ParseWebmFailed (Option VideoTrackInfo) :=
  parseTrackF (input.length + 1) input 0

/-- `parse_tracks_info` (src/ebml/webm.rs lines 150-182): decode the header at
`pos`, require the whole declared payload to be buffered, walk over leading
0xE0 children (`travel_while` with predicate `id == VideoTrack`, so it stops
at the first child whose id differs, normally the first `TrackEntry`), require
that child's payload to be buffered, and run `parse_track` on it; a `Need`
arising from `parse_track` is converted into `Ok(None)`. -/
def parse_tracks_info (input : List Nat) (pos : Nat) :
    Except ParseWebmFailed (Option TracksInfo) :=
  if input.length ≤ pos then .error (.Need (pos - input.length + 1))
  else
    match nextElementHeader input pos with
    | .error e => .error (ebmlToWebm e)
    | .ok (hd, p1) =>
      if input.length - p1 < hd.data_size then
        .error (.Need (hd.data_size - (input.length - p1)))
      else
        let chunk := sliceBytes input p1 hd.data_size
        match travel_while chunk (fun h => h.id = VIDEO_TRACK_ID) 0 with
        | .error e => .error (ebmlToWebm e)
        | .ok (hd2, q1) =>
          if chunk.length - q1 < hd2.data_size then
            .error (.Need (hd2.data_size - (chunk.length - q1)))
          else
            match parse_track (sliceBytes chunk q1 hd2.data_size) with
            | .ok x => .ok (x.map fun v => ⟨v.width, v.height⟩)
            | .error (.Need _) => .ok none
            | .error e => .error e

/-! ### Segment info extractor (src/ebml/webm.rs lines 240-304) -/

/-- The fixed offset between the format's 2001-01-01 epoch and the Unix epoch,
in nanoseconds (src/ebml/webm.rs lines 285-295). -/
def WEBM_EPOCH_DIFF_NS : ℤ := 978307200000000000

/-- `v as i64`: reinterpret an unsigned 64-bit value as signed. -/
def asI64 (v : Nat) : ℤ :=
  if v < 2 ^ 63 then (v : ℤ) else (v : ℤ) - 2 ^ 64

/-- Loop body of `parse_segment_info_body` (src/ebml/webm.rs lines 262-304):
a single forward pass over the Info payload; `TimestampScale` overwrites the
scale used by any later `Duration`; unrecognized children are skipped by their
declared length; a value that fails to decode leaves its field untouched. -/
def segInfoBodyF : Nat → List Nat → Nat → Nat → SegmentInfo →
    Except ParsingError SegmentInfo
  | 0, _, _, _, _ => .error (.Failed "out of fuel")
  | fuel + 1, input, pos, time_scale, info =>
    if input.length ≤ pos then .ok info
    else
      match nextElementHeader input pos with
      | .error e => .error (ebmlToParsing e)
      | .ok (hd, p1) =>
        if hd.id = TIMESTAMP_SCALE_ID then
          let r := getAsU64 input p1 hd.data_size
          segInfoBodyF fuel input r.2 (r.1.getD time_scale) info
        else if hd.id = DURATION_ID then
          let r := getAsF64 input p1 hd.data_size
          let info' := match r.1 with
            | some v => { info with duration := v * (time_scale : ℚ) }
            | none => info
          segInfoBodyF fuel input r.2 time_scale info'
        else if hd.id = DATE_ID then
          let r := getAsU64 input p1 hd.data_size
          let info' := match r.1 with
            | some v => { info with date := asI64 v + WEBM_EPOCH_DIFF_NS }
            | none => info
          segInfoBodyF fuel input r.2 time_scale info'
        else segInfoBodyF fuel input (p1 + hd.data_size) time_scale info

/-- `parse_segment_info_body` (src/ebml/webm.rs lines 262-304); the default
timestamp scale is 1,000,000 (one tick is one millisecond). -/
def parse_segment_info_body (input : List Nat) : Except ParsingError SegmentInfo :=
  segInfoBodyF (input.length + 1) input 0 1000000 ⟨0, 0⟩

/-- `parse_segment_info` (src/ebml/webm.rs lines 240-260): decode the header
at `pos`, require the whole declared payload to be buffered, then walk the
payload; a `Need` arising inside the payload walk is converted into
`Ok(None)`. -/
def parse_segment_info (input : List Nat) (pos : Nat) :
    Except ParsingError (Option SegmentInfo) :=
  if input.length ≤ pos then .error (.Need (pos - input.length + 1))
  else
    match nextElementHeader input pos with
    | .error e => .error (ebmlToParsing e)
    | .ok (hd, p1) =>
      if input.length - p1 < hd.data_size then
        .error (.Need (hd.data_size - (input.length - p1)))
      else
        match parse_segment_info_body (sliceBytes input p1 hd.data_size) with
        | .ok x => .ok (some x)
        | .error (.Need _) => .ok none
        | .error e => .error e

/-! ### Seek table resolver (src/ebml/webm.rs lines 306-425) -/

/-- `SeekEntry` (src/ebml/webm.rs lines 324-328): `seek_id` is a `u32`,
`seek_pos` a `u64`. -/
structure SeekEntry where
  seek_id : Nat
  seek_pos : Nat
deriving DecidableEq, Repr

/-- `HashMap::insert` on the seek table, modelled as an association list in
insertion order: an existing key's value is replaced, a new key is appended. -/
def insertEntry (l : List (Nat × Nat)) (k v : Nat) : List (Nat × Nat) :=
  if l.any (fun kv => kv.1 = k) then
    l.map (fun kv => if kv.1 = k then (k, v) else kv)
  else l ++ [(k, v)]

/-- `HashMap::get` on the modelled seek table. -/
def lookupEntry (l : List (Nat × Nat)) (k : Nat) : Option Nat :=
  (l.find? (fun kv => kv.1 = k)).map (fun kv => kv.2)

/-- Child loop of `parse_seek_entry` (src/ebml/webm.rs lines 393-418), over
the already-extracted `Seek` payload `buf`.  `seek_id` starts at the invalid
sentinel 0xFF and `seek_pos` at zero; a `SeekId` child is decoded as a VInt
with marker truncated to `u32`; a `SeekPosition` child must declare width 8 or
4 and is read big-endian; any other child id, or a bad width, is an
`InvalidSeekEntry`; the loop breaks as soon as both fields are valid.  (The
source reads the position with `bytes::Buf::get_u64`/`get_u32`, which panic if
fewer bytes remain; the model returns `InvalidWebmFile` there, a case none of
the theorems below exercises.) -/
def seekChildrenF : Nat → List Nat → Nat → Nat → Nat →
    Except ParseWebmFailed (Nat × Nat)
  | 0, _, _, sid, spos => .ok (sid, spos)
  | fuel + 1, buf, pos, sid, spos =>
    if buf.length ≤ pos then .ok (sid, spos)
    else
      match vintWithMarker buf pos with
      | .error e => .error (vintToWebm e)
      | .ok (id, p1) =>
        match vintSize buf p1 with
        | .error e => .error (vintToWebm e)
        | .ok (size, p2) =>
          if id = SEEK_ID_ID then
            match vintWithMarker buf p2 with
            | .error e => .error (vintToWebm e)
            | .ok (v, p3) =>
              let sid' := v % 2 ^ 32
              if sid' ≠ INVALID_ELEMENT_ID ∧ spos ≠ 0 then .ok (sid', spos)
              else seekChildrenF fuel buf p3 sid' spos
          else if id = SEEK_POSITION_ID then
            if size = 8 then
              if buf.length < p2 + 8 then .error .InvalidWebmFile
              else
                let sp := beBytes (sliceBytes buf p2 8)
                if sid ≠ INVALID_ELEMENT_ID ∧ sp ≠ 0 then .ok (sid, sp)
                else seekChildrenF fuel buf (p2 + 8) sid sp
            else if size = 4 then
              if buf.length < p2 + 4 then .error .InvalidWebmFile
              else
                let sp := beBytes (sliceBytes buf p2 4)
                if sid ≠ INVALID_ELEMENT_ID ∧ sp ≠ 0 then .ok (sid, sp)
                else seekChildrenF fuel buf (p2 + 4) sid sp
            else .error .InvalidSeekEntry
          else .error .InvalidSeekEntry

/-- `parse_seek_entry` (src/ebml/webm.rs lines 365-425).  The whole `Seek`
element's payload is consumed from the outer cursor up front (line 390), so
the returned position is past the entry on every recoverable outcome; the
children are then decoded from the extracted payload. -/
def parse_seek_entry (input : List Nat) (pos : Nat) :
    Except ParseWebmFailed (Option SeekEntry) × Nat :=
  match vintWithMarker input pos with
  | .error e => (.error (vintToWebm e), pos)
  | .ok (id, p1) =>
    match vintSize input p1 with
    | .error e => (.error (vintToWebm e), pos)
    | .ok (data_size, p2) =>
      if input.length - p2 < data_size then
        (.error (.Need (data_size - (input.length - p2))), pos)
      else if id ≠ SEEK_ELEMENT_ID then
        if id = CRC32_ID ∨ id = VOID_ID then (.ok none, p2 + data_size)
        else (.error .InvalidSeekEntry, p2 + data_size)
      else
        let buf := sliceBytes input p2 data_size
        match seekChildrenF (buf.length + 1) buf 0 INVALID_ELEMENT_ID 0 with
        | .error e => (.error e, p2 + data_size)
        | .ok (sid, spos) =>
          if sid = INVALID_ELEMENT_ID ∨ spos = 0 then
            (.error .InvalidSeekEntry, p2 + data_size)
          else (.ok (some ⟨sid, spos⟩), p2 + data_size)

/-- Loop of `parse_seek_head` (src/ebml/webm.rs lines 344-363): parse sibling
`Seek` entries while bytes remain; valid entries are inserted into the table,
`Void`/`Crc32` fillers and invalid entries are skipped, any other error aborts. -/
def parseSeekHeadF (fuel : Nat) (input : List Nat) (pos : Nat)
    (acc : List (Nat × Nat)) : Except ParseWebmFailed (List (Nat × Nat)) :=
  if input.length ≤ pos then .ok acc
  else
    match fuel with
    | 0 => .error .InvalidWebmFile
    | fuel + 1 =>
      match parse_seek_entry input pos with
      | (.ok (some e), pos') =>
        parseSeekHeadF fuel input pos' (insertEntry acc e.seek_id e.seek_pos)
      | (.ok none, pos') => parseSeekHeadF fuel input pos' acc
      | (.error .InvalidSeekEntry, pos') => parseSeekHeadF fuel input pos' acc
      | (.error e, _) => .error e

/-- `parse_seek_head` (src/ebml/webm.rs lines 344-363), over the extracted
SeekHead payload. -/
def parse_seek_head (input : List Nat) : Except ParseWebmFailed (List (Nat × Nat)) :=
  parseSeekHeadF (input.length + 1) input 0 []

/-- `parse_seeks` (src/ebml/webm.rs lines 306-322): find the SeekHead element
from `pos`, require its payload to be buffered, parse the seek table from the
payload, then turn every seek position into an absolute offset by adding the
SeekHead element's own start offset (`header_pos`). -/
def parse_seeks (input : List Nat) (pos : Nat) :
    Except ParsingError (List (Nat × Nat)) :=
  match find_element_by_id input SEEK_HEAD_ID pos with
  | .error e => .error e
  | .ok (hd, p1) =>
    if input.length - p1 < hd.data_size then
      .error (.Need (hd.data_size - (input.length - p1)))
    else
      let header_pos := p1 - hd.header_size
      match parse_seek_head (sliceBytes input p1 hd.data_size) with
      | .error e => .error (webmToParsing e)
      | .ok entries => .ok (entries.map fun kv => (kv.1, kv.2 + header_pos))

/-! ### Document type declaration and the byte source -/

/-- The EBML header element's ID (external `ebml::element`; the fixed magic of
every EBML document). -/
def EBML_HEADER_ID : Nat := 0x1A45DFA3

/-- The DocType child ID inside the EBML header element. -/
def DOC_TYPE_ID : Nat := 0x4282

/-- Child scan used by the doc-type parser: find the DocType child inside the
extracted EBML-header payload and return its payload bytes. -/
def findDocTypeF : Nat → List Nat → Nat → Except ParseEBMLFailed (List Nat)
  | 0, _, _ => .error .NotEBMLFile
  | fuel + 1, input, pos =>
    if input.length ≤ pos then .error .NotEBMLFile
    else
      match nextElementHeader input pos with
      | .error e => .error e
      | .ok (hd, p1) =>
        if hd.id = DOC_TYPE_ID then .ok (sliceBytes input p1 hd.data_size)
        else findDocTypeF fuel input (p1 + hd.data_size)

/-- Modelled from the spec: `parse_ebml_doc_type` — "decode the EBML
document-type declaration (fails with `NotRecognizedContainer` if the leading
structure is not EBML at all; signals `NeedMoreBytes(n)` if insufficient)";
returns the doc-type string and the position immediately after the EBML header
element. -/
def parse_ebml_doc_type (input : List Nat) (pos : Nat) :
    Except ParseEBMLFailed (String × Nat) :=
  match nextElementHeader input pos with
  | .error e => .error e
  | .ok (hd, p1) =>
    if hd.id ≠ EBML_HEADER_ID then .error .NotEBMLFile
    else if input.length - p1 < hd.data_size then
      .error (.Need (hd.data_size - (input.length - p1)))
    else
      let chunk := sliceBytes input p1 hd.data_size
      match findDocTypeF (chunk.length + 1) chunk 0 with
      | .error e => .error e
      | .ok bs => .ok (String.mk (bs.map Char.ofNat), p1 + hd.data_size)

/-- Modelled from the spec: `load_and_parse` for a fully buffered input — the
whole input is already in memory, so a `NeedMoreBytes` signal can never be
satisfied and surfaces "as the final error if the byte source gives up"
(`ParsedError::NoEnoughBytes`). -/
def loadAndParse {α : Type} (input : List Nat)
    (f : List Nat → Except ParsingError α) : Except ParsedError α :=
  match f input with
  | .ok a => .ok a
  | .error (.Need _) => .error .NoEnoughBytes
  | .error (.Failed s) => .error (.Failed s)

/-- Modelled from the spec: `load_and_parse_at` for a fully buffered input. -/
def loadAndParseAt {α : Type} (input : List Nat)
    (f : List Nat → Nat → Except ParsingError α) (p : Nat) : Except ParsedError α :=
  match f input p with
  | .ok a => .ok a
  | .error (.Need _) => .error .NoEnoughBytes
  | .error (.Failed s) => .error (.Failed s)

/-! ### The orchestrator (src/ebml/webm.rs lines 54-142) -/

/-- The doc-type closure of `parse_webm` (src/ebml/webm.rs lines 57-63). -/
def docTypeStep (inp : List Nat) : Except ParsingError (String × Nat) :=
  (parse_ebml_doc_type inp 0).mapError ebmlToParsing

/-- The Segment-header closure of `parse_webm` (src/ebml/webm.rs lines 68-80):
the element after the doc-type declaration must be the Segment; the returned
position is where the Segment's payload begins. -/
def segmentStep (inp : List Nat) (q : Nat) : Except ParsingError Nat :=
  match nextElementHeader inp q with
  | .error e => .error (ebmlToParsing e)
  | .ok (hd, p1) =>
    if hd.id ≠ SEGMENT_ID then .error (webmToParsing .NotWebmFile)
    else .ok p1

/-- The seek-branch Tracks closure of `parse_webm` (src/ebml/webm.rs line 99). -/
def tracksAtStep (x : List Nat) (q : Nat) : Except ParsingError (Option TracksInfo) :=
  (parse_tracks_info x q).mapError webmToParsing

/-- The fallback Info closure of `parse_webm` (src/ebml/webm.rs lines 108-118):
scan the Segment payload for the Info element and parse it at its header
start. -/
def infoFallbackStep (x : List Nat) (q : Nat) :
    Except ParsingError (Option SegmentInfo) :=
  match travel_while x (fun h => h.id ≠ INFO_ID) q with
  | .error e => .error (ebmlToParsing e)
  | .ok (hd, p1) => parse_segment_info x (p1 - hd.header_size)

/-- The fallback Tracks closure of `parse_webm` (src/ebml/webm.rs lines
124-134). -/
def tracksFallbackStep (x : List Nat) (q : Nat) :
    Except ParsingError (Option TracksInfo) :=
  match travel_while x (fun h => h.id ≠ TRACKS_ID) q with
  | .error e => .error (ebmlToParsing e)
  | .ok (hd, p1) => (parse_tracks_info x (p1 - hd.header_size)).mapError webmToParsing

/-- The seek-table branch of `parse_webm` (src/ebml/webm.rs lines 87-104):
look up the Info and Tracks offsets and parse each element in place; a missing
entry leaves the corresponding field at its default. -/
def parseWebmWithSeeks (input : List Nat) (seeks : List (Nat × Nat))
    (base : EbmlFileInfo) : Except ParsedError EbmlFileInfo :=
  let step1 : Except ParsedError EbmlFileInfo :=
    match lookupEntry seeks (INFO_ID % 2 ^ 32) with
    | some p =>
      match loadAndParseAt input parse_segment_info p with
      | .error e => .error e
      | .ok (some si) => .ok { base with segment_info := si }
      | .ok none => .ok base
    | none => .ok base
  match step1 with
  | .error e => .error e
  | .ok fi =>
    match lookupEntry seeks (TRACKS_ID % 2 ^ 32) with
    | some p =>
      match loadAndParseAt input tracksAtStep p with
      | .error e => .error e
      | .ok (some ti) => .ok { fi with tracks_info := ti }
      | .ok none => .ok fi
    | none => .ok fi

/-- The fallback branch of `parse_webm` (src/ebml/webm.rs lines 105-139):
scan the Segment payload for the Info element and parse it at its header
start, then scan independently for the Tracks element and parse it. -/
def parseWebmFallback (input : List Nat) (pos : Nat) (base : EbmlFileInfo) :
    Except ParsedError EbmlFileInfo :=
  let infoStep : Except ParsedError (Option SegmentInfo) :=
    loadAndParseAt input infoFallbackStep pos
  match infoStep with
  | .error e => .error e
  | .ok oinfo =>
    let fi := match oinfo with
      | some si => { base with segment_info := si }
      | none => base
    let tracksStep : Except ParsedError (Option TracksInfo) :=
      loadAndParseAt input tracksFallbackStep pos
    match tracksStep with
    | .error e => .error e
    | .ok (some ti) => .ok { fi with tracks_info := ti }
    | .ok none => .ok fi

/-- `parse_webm` (src/ebml/webm.rs lines 54-142) over a fully buffered input:
decode the doc type, require the next element to be the Segment, then either
use the seek table (when `parse_seeks` succeeds) or fall back to a linear scan
of the Segment payload. -/
def parse_webm (input : List Nat) : Except ParsedError EbmlFileInfo :=
  match loadAndParse input docTypeStep with
  | .error e => .error e
  | .ok (docType, pos0) =>
    match loadAndParseAt input segmentStep pos0 with
    | .error e => .error e
    | .ok pos =>
      let base : EbmlFileInfo := ⟨docType, ⟨0, 0⟩, ⟨0, 0⟩⟩
      match loadAndParseAt input parse_seeks pos with
      | .ok seeks => parseWebmWithSeeks input seeks base
      | .error _ => parseWebmFallback input pos base

/-! ### The zero-copy buffer view (src/partial_vec.rs) -/

/-- `PartialVec` (src/partial_vec.rs lines 9-13): a shared immutable owner
buffer and an active half-open sub-range `(start, stop)`.  The `Arc` sharing
is value-transparent (`Arc<Vec<u8>>` compares by pointee value), so the owner
is modelled by its byte list. -/
structure PartialVec where
  data : List Nat
  range : Nat × Nat
deriving DecidableEq, Repr

instance : Inhabited PartialVec := ⟨⟨[], (0, 0)⟩⟩

namespace PartialVec

/-- `PartialVec::new` (src/partial_vec.rs lines 25-28): asserts
`range.end <= vec.len()`; the panic is modelled as `none`. -/
def new (vec : List Nat) (range : Nat × Nat) : Option PartialVec :=
  if range.2 ≤ vec.length then some ⟨vec, range⟩ else none

/-- `PartialVec::from_vec_range` (src/partial_vec.rs lines 46-49): asserts the
same bound, then defers to `new`. -/
def from_vec_range (vec : List Nat) (range : Nat × Nat) : Option PartialVec :=
  if range.2 ≤ vec.length then new vec range else none

/-- `PartialVec::from_vec` (src/partial_vec.rs lines 30-33): the full range. -/
def from_vec (vec : List Nat) : Option PartialVec :=
  from_vec_range vec (0, vec.length)

/-- Modelled from the spec: `SubsliceRange::subslice_in_range` of the external
`crate::slice` module — "construction of a sub-view must validate containment
by offset arithmetic"; the argument sub-slice is given by its offset and
length within the owner, and containment fails when it reaches past the
owner's end. -/
def subslice_in_range (owner : List Nat) (start len : Nat) : Option (Nat × Nat) :=
  if start + len ≤ owner.length then some (start, start + len) else none

/-- `PartialVec::from_arc_vec_slice` (src/partial_vec.rs lines 39-44):
`expect`s containment (panic modelled as `none`), then defers to `new`. -/
def from_arc_vec_slice (vec : List Nat) (start len : Nat) : Option PartialVec :=
  match subslice_in_range vec start len with
  | some r => new vec r
  | none => none

/-- `PartialVec::partial` (src/partial_vec.rs lines 51-58): `expect`s
containment in its own owner, then builds the associated view over the same
owner (`AssociatedInput` is an alias of `PartialVec`, and
`AssociatedInput::new` is `PartialVec::new`). -/
def partialView (pv : PartialVec) (start len : Nat) : Option PartialVec :=
  match subslice_in_range pv.data start len with
  | some r => new pv.data r
  | none => none

/-- `Deref for PartialVec` (src/partial_vec.rs lines 98-103):
`&self.data[self.range]`.  Rust indexing with a range panics when
`start > end` or `end > len`; the panic is modelled as `none`, and a
successful dereference yields exactly `owner[range]`. -/
def deref (pv : PartialVec) : Option (List Nat) :=
  if pv.range.1 ≤ pv.range.2 ∧ pv.range.2 ≤ pv.data.length then
    some (sliceBytes pv.data pv.range.1 (pv.range.2 - pv.range.1))
  else none

end PartialVec

/-! ### Helper lemmas -/

/-- A VInt is at least one byte wide. -/
theorem vintLen_pos (b : Nat) : 1 ≤ vintLen b := by
  unfold vintLen
  repeat' split
  all_goals omega

/-- A successful VInt decode starts strictly inside the buffer and ends inside
it, strictly after where it started. -/
theorem vintWithMarker_ok_bounds {input : List Nat} {pos v p' : Nat}
    (h : vintWithMarker input pos = .ok (v, p')) :
    pos < input.length ∧ pos < p' ∧ p' ≤ input.length := by
  simp only [vintWithMarker] at h
  split at h
  case isTrue => exact absurd h (by simp)
  case isFalse h1 =>
    split at h
    case isTrue => exact absurd h (by simp)
    case isFalse h2 =>
      split at h
      case isTrue => exact absurd h (by simp)
      case isFalse h3 =>
        have hlen := vintLen_pos (input.getD pos 0)
        simp only [Except.ok.injEq, Prod.mk.injEq] at h
        omega

/-- A successful element-header decode starts strictly inside the buffer and
ends inside it. -/
theorem nextElementHeader_ok_bounds {input : List Nat} {pos : Nat}
    {hd : ElementHeader} {p1 : Nat}
    (h : nextElementHeader input pos = .ok (hd, p1)) :
    pos < input.length ∧ pos < p1 ∧ p1 ≤ input.length := by
  simp only [nextElementHeader] at h
  cases h1 : vintWithMarker input pos with
  | error e =>
    rw [h1] at h
    cases e <;> simp at h
  | ok r =>
    obtain ⟨v, q⟩ := r
    rw [h1] at h
    have hb1 := vintWithMarker_ok_bounds h1
    simp only [vintSize] at h
    cases h2 : vintWithMarker input q with
    | error e =>
      rw [h2] at h
      cases e <;> simp at h
    | ok r2 =>
      obtain ⟨v2, q2⟩ := r2
      rw [h2] at h
      have hb2 := vintWithMarker_ok_bounds h2
      simp only [Except.ok.injEq, Prod.mk.injEq] at h
      omega

/-- One unfolding step of `travelWhileF`. -/
theorem travelWhileF_step (fuel : Nat) (input : List Nat)
    (pred : ElementHeader → Bool) (pos : Nat) :
    travelWhileF (fuel + 1) input pred pos =
      match nextElementHeader input pos with
      | .error e => .error e
      | .ok (hd, p1) =>
        if pred hd then
          if input.length - p1 < hd.data_size then
            .error (.Need (hd.data_size - (input.length - p1)))
          else travelWhileF fuel input pred (p1 + hd.data_size)
        else .ok (hd, p1) := rfl

/-- One unfolding step of `findByIdF`. -/
theorem findByIdF_step (fuel : Nat) (input : List Nat) (target pos : Nat) :
    findByIdF (fuel + 1) input target pos =
      (if input.length ≤ pos then .error (.Failed "element not found")
        else
          match nextElementHeader input pos with
          | .error e => .error (ebmlToParsing e)
          | .ok (hd, p1) =>
            if hd.id = target then .ok (hd, p1)
            else if input.length - p1 < hd.data_size then
              .error (.Need (hd.data_size - (input.length - p1)))
            else findByIdF fuel input target (p1 + hd.data_size)) := rfl

/-- One unfolding step of `segInfoBodyF`. -/
theorem segInfoBodyF_step (fuel : Nat) (input : List Nat) (pos time_scale : Nat)
    (info : SegmentInfo) :
    segInfoBodyF (fuel + 1) input pos time_scale info =
      (if input.length ≤ pos then .ok info
        else
          match nextElementHeader input pos with
          | .error e => .error (ebmlToParsing e)
          | .ok (hd, p1) =>
            if hd.id = TIMESTAMP_SCALE_ID then
              let r := getAsU64 input p1 hd.data_size
              segInfoBodyF fuel input r.2 (r.1.getD time_scale) info
            else if hd.id = DURATION_ID then
              let r := getAsF64 input p1 hd.data_size
              let info' := match r.1 with
                | some v => { info with duration := v * (time_scale : ℚ) }
                | none => info
              segInfoBodyF fuel input r.2 time_scale info'
            else if hd.id = DATE_ID then
              let r := getAsU64 input p1 hd.data_size
              let info' := match r.1 with
                | some v => { info with date := asI64 v + WEBM_EPOCH_DIFF_NS }
                | none => info
              segInfoBodyF fuel input r.2 time_scale info'
            else segInfoBodyF fuel input (p1 + hd.data_size) time_scale info) := rfl

/-- One unfolding step of `parseTrackF`. -/
theorem parseTrackF_step (fuel : Nat) (input : List Nat) (pos : Nat) :
    parseTrackF (fuel + 1) input pos =
      (if input.length ≤ pos then .ok none
        else
          match nextElementHeader input pos with
          | .error e => .error (ebmlToWebm e)
          | .ok (hd, p1) =>
            if isTracksId hd.id then
              if hd.id = VIDEO_TRACK_ID then
                match parse_video_track (sliceBytes input p1 hd.data_size) with
                | .error e => .error e
                | .ok v => .ok (some v)
              else parseTrackF fuel input (p1 + hd.data_size)
            else parseTrackF fuel input (p1 + hd.data_size)) := rfl

/-- One unfolding step of `seekChildrenF`. -/
theorem seekChildrenF_step (fuel : Nat) (buf : List Nat) (pos sid spos : Nat) :
    seekChildrenF (fuel + 1) buf pos sid spos =
      (if buf.length ≤ pos then .ok (sid, spos)
        else
          match vintWithMarker buf pos with
          | .error e => .error (vintToWebm e)
          | .ok (id, p1) =>
            match vintSize buf p1 with
            | .error e => .error (vintToWebm e)
            | .ok (size, p2) =>
              if id = SEEK_ID_ID then
                match vintWithMarker buf p2 with
                | .error e => .error (vintToWebm e)
                | .ok (v, p3) =>
                  let sid' := v % 2 ^ 32
                  if sid' ≠ INVALID_ELEMENT_ID ∧ spos ≠ 0 then .ok (sid', spos)
                  else seekChildrenF fuel buf p3 sid' spos
              else if id = SEEK_POSITION_ID then
                if size = 8 then
                  if buf.length < p2 + 8 then .error .InvalidWebmFile
                  else
                    let sp := beBytes (sliceBytes buf p2 8)
                    if sid ≠ INVALID_ELEMENT_ID ∧ sp ≠ 0 then .ok (sid, sp)
                    else seekChildrenF fuel buf (p2 + 8) sid sp
                else if size = 4 then
                  if buf.length < p2 + 4 then .error .InvalidWebmFile
                  else
                    let sp := beBytes (sliceBytes buf p2 4)
                    if sid ≠ INVALID_ELEMENT_ID ∧ sp ≠ 0 then .ok (sid, sp)
                    else seekChildrenF fuel buf (p2 + 4) sid sp
                else .error .InvalidSeekEntry
              else .error .InvalidSeekEntry) := rfl

/-- One unfolding step of `parseSeekHeadF`. -/
theorem parseSeekHeadF_step (fuel : Nat) (input : List Nat) (pos : Nat)
    (acc : List (Nat × Nat)) :
    parseSeekHeadF (fuel + 1) input pos acc =
      (if input.length ≤ pos then .ok acc
        else
          match parse_seek_entry input pos with
          | (.ok (some e), pos') =>
            parseSeekHeadF fuel input pos' (insertEntry acc e.seek_id e.seek_pos)
          | (.ok none, pos') => parseSeekHeadF fuel input pos' acc
          | (.error .InvalidSeekEntry, pos') => parseSeekHeadF fuel input pos' acc
          | (.error e, _) => .error e) := by
  rw [parseSeekHeadF.eq_def]

/-- `parseSeekHeadF` returns its accumulator at the end of the buffer,
whatever fuel remains. -/
theorem parseSeekHeadF_done (fuel : Nat) (input : List Nat) (pos : Nat)
    (acc : List (Nat × Nat)) (h : input.length ≤ pos) :
    parseSeekHeadF fuel input pos acc = .ok acc := by
  rw [parseSeekHeadF.eq_def, if_pos h]

/-- Unfolding of a successful `PartialVec.new`. -/
theorem PartialVec.new_eq_some {vec : List Nat} {r : Nat × Nat} {pv : PartialVec} :
    PartialVec.new vec r = some pv ↔ r.2 ≤ vec.length ∧ pv = ⟨vec, r⟩ := by
  unfold PartialVec.new
  split
  case isTrue hc => simp [hc, eq_comm]
  case isFalse hc => simp [hc]

/-- A view whose range is a well-formed sub-range dereferences to the
corresponding slice of its owner. -/
theorem PartialVec.deref_of_le {vec : List Nat} {start stop : Nat}
    (h1 : start ≤ stop) (h2 : stop ≤ vec.length) :
    PartialVec.deref ⟨vec, (start, stop)⟩ = some (sliceBytes vec start (stop - start)) := by
  unfold PartialVec.deref
  rw [if_pos ⟨h1, h2⟩]

/-! ### Claim C7 -/

/-- C7 counterexample: the claim states that after the constructor checks,
"dereferencing it always yields owner[range] without out-of-bounds access".
But the constructors only assert `range.end <= owner.len()`: the reversed
range `2..1` on a three-byte owner passes `PartialVec::new`'s assertion and a
view is returned, yet dereferencing that view panics in Rust
(`&data[2..1]` is an invalid slice index), modelled as `deref = none`. -/
theorem c7_counterexample :
    PartialVec.new [0, 0, 0] (2, 1) = some ⟨[0, 0, 0], (2, 1)⟩ ∧
      PartialVec.deref ⟨[0, 0, 0], (2, 1)⟩ = none := by decide

/-- C7 (amended): every `PartialVec` constructor rejects (panics) when the
requested range end exceeds the owner's length or the sub-slice is not
contained in the owner, and never returns such a view, so every constructed
view satisfies `range.end <= owner.length`; dereferencing yields
`owner[range]` provided additionally `range.start <= range.end`, which the
sub-slice-based constructors (`from_vec`, `from_arc_vec_slice`, `partial`)
always guarantee, while `new`/`from_vec_range` accept a reversed range whose
dereference panics. -/
theorem c7_constructors_enforce_bounds (vec : List Nat) (r : Nat × Nat)
    (start len : Nat) (pv0 pv : PartialVec) :
    (vec.length < r.2 →
      PartialVec.new vec r = none ∧ PartialVec.from_vec_range vec r = none) ∧
    (PartialVec.new vec r = some pv → pv.range.2 ≤ pv.data.length) ∧
    (PartialVec.from_vec_range vec r = some pv → pv.range.2 ≤ pv.data.length) ∧
    (PartialVec.from_vec vec = some pv →
      pv.range.1 ≤ pv.range.2 ∧ pv.range.2 ≤ pv.data.length ∧
        pv.deref = some vec) ∧
    (vec.length < start + len →
      PartialVec.from_arc_vec_slice vec start len = none) ∧
    (PartialVec.from_arc_vec_slice vec start len = some pv →
      pv.range.1 ≤ pv.range.2 ∧ pv.range.2 ≤ pv.data.length ∧
        pv.deref = some (sliceBytes vec start len)) ∧
    (pv0.data.length < start + len →
      PartialVec.partialView pv0 start len = none) ∧
    (PartialVec.partialView pv0 start len = some pv →
      pv.range.1 ≤ pv.range.2 ∧ pv.range.2 ≤ pv.data.length ∧
        pv.deref = some (sliceBytes pv0.data start len)) := by
  refine ⟨?_, ?_, ?_, ?_, ?_, ?_, ?_, ?_⟩
  · intro hlt
    constructor
    · unfold PartialVec.new
      rw [if_neg (by omega)]
    · unfold PartialVec.from_vec_range
      rw [if_neg (by omega)]
  · intro h
    rw [PartialVec.new_eq_some] at h
    obtain ⟨hle, rfl⟩ := h
    exact hle
  · intro h
    unfold PartialVec.from_vec_range at h
    split at h
    · rw [PartialVec.new_eq_some] at h
      obtain ⟨hle, rfl⟩ := h
      exact hle
    · exact absurd h (by simp)
  · intro h
    unfold PartialVec.from_vec PartialVec.from_vec_range at h
    rw [if_pos (le_refl _), PartialVec.new_eq_some] at h
    obtain ⟨hle, rfl⟩ := h
    refine ⟨by simp, by simp, ?_⟩
    rw [PartialVec.deref_of_le (by simp) (by simp)]
    simp [sliceBytes]
  · intro hlt
    unfold PartialVec.from_arc_vec_slice PartialVec.subslice_in_range
    rw [if_neg (by omega)]
  · intro h
    unfold PartialVec.from_arc_vec_slice at h
    cases hs : PartialVec.subslice_in_range vec start len with
    | none => rw [hs] at h ; exact absurd h (by simp)
    | some r =>
      rw [hs] at h
      unfold PartialVec.subslice_in_range at hs
      split at hs
      case isFalse => exact absurd hs (by simp)
      case isTrue hc =>
        simp only [Option.some.injEq] at hs
        subst hs
        rw [PartialVec.new_eq_some] at h
        obtain ⟨hle, rfl⟩ := h
        refine ⟨by simp, by simpa using hc, ?_⟩
        rw [PartialVec.deref_of_le (by simp) (by simpa using hc)]
        congr 1
        congr 1
        omega
  · intro hlt
    unfold PartialVec.partialView PartialVec.subslice_in_range
    rw [if_neg (by omega)]
  · intro h
    unfold PartialVec.partialView at h
    cases hs : PartialVec.subslice_in_range pv0.data start len with
    | none => rw [hs] at h ; exact absurd h (by simp)
    | some r =>
      rw [hs] at h
      unfold PartialVec.subslice_in_range at hs
      split at hs
      case isFalse => exact absurd hs (by simp)
      case isTrue hc =>
        simp only [Option.some.injEq] at hs
        subst hs
        rw [PartialVec.new_eq_some] at h
        obtain ⟨hle, rfl⟩ := h
        refine ⟨by simp, by simpa using hc, ?_⟩
        rw [PartialVec.deref_of_le (by simp) (by simpa using hc)]
        congr 1
        congr 1
        omega

/-- C7 witness: the amended theorem applied at a concrete owner, range and
sub-slice. -/
theorem c7_constructors_enforce_bounds_witness :
    (PartialVec.mk [7, 8, 9] (1, 3)).range.1 ≤ (PartialVec.mk [7, 8, 9] (1, 3)).range.2 ∧
      (PartialVec.mk [7, 8, 9] (1, 3)).range.2 ≤ (PartialVec.mk [7, 8, 9] (1, 3)).data.length ∧
      (PartialVec.mk [7, 8, 9] (1, 3)).deref = some (sliceBytes [7, 8, 9] 1 2) :=
  (c7_constructors_enforce_bounds [7, 8, 9] (0, 0) 1 2 default
    ⟨[7, 8, 9], (1, 3)⟩).2.2.2.2.2.1 (by decide)

/-! ### Claim C8 -/

/-- C8 counterexample: two views over distinct owners that agree on the
materialized bytes (`owner[range]`) and on the range still compare unequal,
because the derived equality compares the whole owner buffer, not the
materialized bytes.  The owners `[1,2,3]` and `[1,2,9]` differ only outside
the active range `0..2`. -/
theorem c8_counterexample :
    PartialVec.deref ⟨[1, 2, 3], (0, 2)⟩ = PartialVec.deref ⟨[1, 2, 9], (0, 2)⟩ ∧
      (PartialVec.mk [1, 2, 3] (0, 2)).range = (PartialVec.mk [1, 2, 9] (0, 2)).range ∧
      PartialVec.mk [1, 2, 3] (0, 2) ≠ PartialVec.mk [1, 2, 9] (0, 2) := by decide

/-- C8 (amended): equality between views compares the owner's full byte
sequence by value (not object identity) together with the range; equal views
therefore have equal materialized bytes, but equal materialized bytes and
equal ranges are not sufficient when the owners differ outside the range. -/
theorem c8_eq_compares_owner_and_range (a b : PartialVec) :
    (a = b ↔ a.data = b.data ∧ a.range = b.range) ∧
      (a = b → a.deref = b.deref) := by
  constructor
  · constructor
    · intro h
      rw [h]
      exact ⟨rfl, rfl⟩
    · rintro ⟨h1, h2⟩
      cases a
      cases b
      simp_all
  · intro h
    rw [h]

/-- C8 witness: the amended theorem applied at concrete views built over
distinct but value-equal owner buffers. -/
theorem c8_eq_compares_owner_and_range_witness :
    PartialVec.mk [5, 6] (0, 1) = PartialVec.mk [5, 6] (0, 1) :=
  ((c8_eq_compares_owner_and_range ⟨[5, 6], (0, 1)⟩ ⟨[5, 6], (0, 1)⟩).1).2
    ⟨by decide, by decide⟩

/-! ### Claim C4: counterexample -/

/-- C4 counterexample: a Video payload with a decodable PixelWidth (value 2)
and no PixelHeight element.  The claim expects width 2 and height 0; instead
the height scan exhausts the payload, `parse_video_track` fails with a `Need`
error, and the whole tracks extractor consequently reports no result (the
enclosing Tracks parse yields `Ok(None)`, leaving `tracks_info` all-zero and
dropping the decoded width). -/
theorem c4_counterexample :
    parse_video_track [0xB0, 0x81, 0x02] = .error (.Need 1) ∧
      parse_video_track [0xB0, 0x81, 0x02] ≠ .ok ⟨2, 0⟩ ∧
      parse_tracks_info
        [0x16, 0x54, 0xAE, 0x6B, 0x87,
         0xAE, 0x85, 0xE0, 0x83, 0xB0, 0x81, 0x02] 0 = .ok none := by decide

/-- C4 (amended): a Video payload containing only one of the two pixel
elements (only PixelWidth, or only PixelHeight) makes `parse_video_track`
fail with a `Need` error — the walk for the missing element exhausts the
payload — so the present field's value is not reported; a field is left at
zero while the other is retained only when both elements are present but one
value fails to decode. -/
theorem c4_missing_dimension_errors (v : Nat) :
    parse_video_track [0xB0, 0x81, v] = .error (.Need 1) ∧
      parse_video_track [0xBA, 0x81, v] = .error (.Need 1) := by
  constructor <;>
    simp [parse_video_track, travel_while, travelWhileF, nextElementHeader,
      vintWithMarker, vintSize, vintLen, sliceBytes, beBytes, getAsU64,
      PIXEL_WIDTH_ID, PIXEL_HEIGHT_ID, ebmlToWebm]

/-! ### Claim C9 -/

/-- C9 counterexample: a Tracks element whose declared payload (two bytes) is
fully buffered, yet `parse_tracks_info` returns a `Need` error: the payload's
single child header declares five bytes of data that overrun the payload, and
the corresponding shortfall check sits outside the conversion of `parse_track`
errors, so the `Need` escapes even though every declared Tracks byte is
present (header 5 bytes + payload 2 bytes = the whole 7-byte input). -/
theorem c9_counterexample :
    nextElementHeader [0x16, 0x54, 0xAE, 0x6B, 0x82, 0xAE, 0x85] 0 =
        .ok (⟨0x1654AE6B, 5, 2⟩, 5) ∧
      (5 + 2 : Nat) ≤ ([0x16, 0x54, 0xAE, 0x6B, 0x82, 0xAE, 0x85] : List Nat).length ∧
      parse_tracks_info [0x16, 0x54, 0xAE, 0x6B, 0x82, 0xAE, 0x85] 0 =
        .error (.Need 5) := by decide

/-- C9 (amended): the claim holds for the segment-info extractor — whenever
the Info element's header decodes and its whole declared payload is buffered,
`parse_segment_info` never returns a `Need` error (any `Need` arising inside
the payload walk is converted into `Ok(None)`) — but not for the tracks
extractor, where only `Need` errors raised by `parse_track` are converted and
the intermediate child traversal can still surface `Need`. -/
theorem c9_segment_info_no_need_when_buffered (input : List Nat) (pos : Nat)
    (hd : ElementHeader) (p1 : Nat)
    (hh : nextElementHeader input pos = .ok (hd, p1))
    (hbuf : p1 + hd.data_size ≤ input.length) :
    ∀ n, parse_segment_info input pos ≠ .error (.Need n) := by
  intro n
  have hb := nextElementHeader_ok_bounds hh
  unfold parse_segment_info
  rw [if_neg (by omega), hh]
  dsimp only
  rw [if_neg (by omega)]
  cases hbody : parse_segment_info_body (sliceBytes input p1 hd.data_size) with
  | ok x => simp
  | error e => cases e <;> simp

/-- C9 witness: the amended theorem applied at a concrete buffered Info
element (empty payload). -/
theorem c9_segment_info_no_need_when_buffered_witness :
    parse_segment_info [0x15, 0x49, 0xA9, 0x66, 0x80] 0 ≠ .error (.Need 1) :=
  c9_segment_info_no_need_when_buffered [0x15, 0x49, 0xA9, 0x66, 0x80] 0
    ⟨0x1549A966, 5, 0⟩ 5 (by decide) (by decide) 1

/-! ### Locality lemmas: parsing at `pos + k` only looks at the dropped tail -/

/-- `getD` through `drop`. -/
theorem getD_drop_eq (input : List Nat) (pos k : Nat) :
    (input.drop pos).getD k 0 = input.getD (pos + k) 0 := by
  simp [List.getD_eq_getElem?_getD, List.getElem?_drop]

/-- `sliceBytes` through `drop`. -/
theorem sliceBytes_drop (input : List Nat) (pos k n : Nat) :
    sliceBytes (input.drop pos) k n = sliceBytes input (pos + k) n := by
  simp [sliceBytes, List.drop_drop]

/-- VInt decoding at `pos + k` is VInt decoding of the dropped tail at `k`,
with the resulting position shifted back. -/
theorem vintWithMarker_drop (input : List Nat) (pos k n : Nat)
    (hpos : pos ≤ input.length) (hn : n = pos + k) :
    vintWithMarker input n =
      match vintWithMarker (input.drop pos) k with
      | .ok (v, p) => .ok (v, pos + p)
      | .error e => .error e := by
  subst hn
  simp only [vintWithMarker, getD_drop_eq, List.length_drop, sliceBytes_drop]
  by_cases h1 : input.length ≤ pos + k
  · rw [if_pos h1, if_pos (show input.length - pos ≤ k by omega)]
  · rw [if_neg h1, if_neg (show ¬input.length - pos ≤ k by omega)]
    by_cases h2 : input.getD (pos + k) 0 = 0
    · simp only [if_pos h2]
    · simp only [if_neg h2]
      by_cases h3 : input.length < pos + k + vintLen (input.getD (pos + k) 0)
      · rw [if_pos h3, if_pos (show input.length - pos <
            k + vintLen (input.getD (pos + k) 0) by omega)]
        show _ = Except.error (.Need _)
        congr 2
        omega
      · rw [if_neg h3, if_neg (show ¬input.length - pos <
            k + vintLen (input.getD (pos + k) 0) by omega)]
        show _ = Except.ok (_, pos + (k + vintLen (input.getD (pos + k) 0)))
        congr 2
        omega

/-- `vintSize` at `pos + k`, shifted. -/
theorem vintSize_drop (input : List Nat) (pos k n : Nat)
    (hpos : pos ≤ input.length) (hn : n = pos + k) :
    vintSize input n =
      match vintSize (input.drop pos) k with
      | .ok (v, p) => .ok (v, pos + p)
      | .error e => .error e := by
  subst hn
  unfold vintSize
  rw [vintWithMarker_drop input pos k _ hpos rfl]
  cases h : vintWithMarker (input.drop pos) k with
  | error e => rfl
  | ok r =>
    obtain ⟨v, p⟩ := r
    show Except.ok (v - 2 ^ (7 * (pos + p - (pos + k))), pos + p) =
      Except.ok (v - 2 ^ (7 * (p - k)), pos + p)
    rw [show pos + p - (pos + k) = p - k by omega]

/-- Element-header decoding at `pos + k`, shifted. -/
theorem nextElementHeader_drop (input : List Nat) (pos k n : Nat)
    (hpos : pos ≤ input.length) (hn : n = pos + k) :
    nextElementHeader input n =
      match nextElementHeader (input.drop pos) k with
      | .ok (hd, p) => .ok (hd, pos + p)
      | .error e => .error e := by
  subst hn
  unfold nextElementHeader
  rw [vintWithMarker_drop input pos k _ hpos rfl]
  cases h : vintWithMarker (input.drop pos) k with
  | error e => cases e <;> rfl
  | ok r =>
    obtain ⟨v, p1⟩ := r
    dsimp only
    rw [vintSize_drop input pos p1 _ hpos rfl]
    cases h2 : vintSize (input.drop pos) p1 with
    | error e => cases e <;> rfl
    | ok r2 =>
      obtain ⟨ds, p2⟩ := r2
      show Except.ok (ElementHeader.mk v (pos + p2 - (pos + k)) ds, pos + p2) =
        Except.ok (ElementHeader.mk v (p2 - k) ds, pos + p2)
      rw [show pos + p2 - (pos + k) = p2 - k by omega]

/-- `getAsU64` at `pos + k`, shifted. -/
theorem getAsU64_drop (input : List Nat) (pos k n size : Nat)
    (hpos : pos ≤ input.length) (hn : n = pos + k) :
    getAsU64 input n size =
      ((getAsU64 (input.drop pos) k size).1,
        pos + (getAsU64 (input.drop pos) k size).2) := by
  subst hn
  simp only [getAsU64, List.length_drop, sliceBytes_drop]
  by_cases h1 : 1 ≤ size ∧ size ≤ 8 ∧ pos + k + size ≤ input.length
  · rw [if_pos h1, if_pos (show 1 ≤ size ∧ size ≤ 8 ∧ k + size ≤ input.length - pos
      by omega)]
    simp
    omega
  · rw [if_neg h1, if_neg (show ¬(1 ≤ size ∧ size ≤ 8 ∧ k + size ≤ input.length - pos)
      by omega)]
    simp
    omega

/-- `getAsF64` at `pos + k`, shifted. -/
theorem getAsF64_drop (input : List Nat) (pos k n size : Nat)
    (hpos : pos ≤ input.length) (hn : n = pos + k) :
    getAsF64 input n size =
      ((getAsF64 (input.drop pos) k size).1,
        pos + (getAsF64 (input.drop pos) k size).2) := by
  subst hn
  simp only [getAsF64, List.length_drop, sliceBytes_drop]
  by_cases h1 : size = 8 ∧ pos + k + 8 ≤ input.length
  · rw [if_pos h1, if_pos (show size = 8 ∧ k + 8 ≤ input.length - pos by omega)]
    simp
    omega
  · rw [if_neg h1, if_neg (show ¬(size = 8 ∧ k + 8 ≤ input.length - pos) by omega)]
    by_cases h2 : size = 4 ∧ pos + k + 4 ≤ input.length
    · rw [if_pos h2, if_pos (show size = 4 ∧ k + 4 ≤ input.length - pos by omega)]
      simp
      omega
    · rw [if_neg h2, if_neg (show ¬(size = 4 ∧ k + 4 ≤ input.length - pos) by omega)]
      simp
      omega

/-- A single byte with the high bit set is a complete one-byte VInt. -/
theorem sliceBytes_one (input : List Nat) (pos : Nat) (h : pos < input.length) :
    sliceBytes input pos 1 = [input.getD pos 0] := by
  unfold sliceBytes
  rw [List.drop_eq_getElem_cons h, List.take_succ_cons, List.take_zero]
  simp [List.getD_eq_getElem?_getD, List.getElem?_eq_getElem h]

/-- One-byte VInt decode (id form, marker kept): a first byte of 128 or more
is complete in itself. -/
theorem vintWithMarker_one (input : List Nat) (pos b : Nat)
    (hb : 128 ≤ b) (hget : input.getD pos 0 = b) (hlen : pos < input.length) :
    vintWithMarker input pos = .ok (b, pos + 1) := by
  unfold vintWithMarker
  rw [if_neg (by omega), hget, if_neg (by omega)]
  rw [show vintLen b = 1 from by unfold vintLen ; rw [if_pos hb]]
  rw [if_neg (by omega), sliceBytes_one input pos hlen, hget]
  simp [beBytes]

/-- One-byte VInt decode (size form, marker stripped). -/
theorem vintSize_one (input : List Nat) (pos b : Nat)
    (hb : 128 ≤ b) (hget : input.getD pos 0 = b) (hlen : pos < input.length) :
    vintSize input pos = .ok (b - 128, pos + 1) := by
  unfold vintSize
  rw [vintWithMarker_one input pos b hb hget hlen]
  norm_num

/-! ### Claim C6 -/

/-- Header decode of the Duration element at the head of the C6 payload. -/
theorem c6_hdr_duration (b0 b1 b2 b3 b4 b5 b6 b7 s : Nat) :
    nextElementHeader
      [0x44, 0x89, 0x88, b0, b1, b2, b3, b4, b5, b6, b7,
       0x2A, 0xD7, 0xB1, 0x81, s] 0 = .ok (⟨0x4489, 3, 8⟩, 3) := by
  simp only [nextElementHeader, vintWithMarker, vintSize, vintLen, sliceBytes,
    beBytes, getAsU64, getAsF64, List.length_cons, List.length_nil,
    List.getD_cons_zero, List.getD_cons_succ, List.drop_zero, List.drop_succ_cons,
    List.drop_nil, List.take_succ_cons, List.take_zero, List.take_nil, List.getD_nil]
  norm_num [beBytes]

/-- Float decode of the Duration payload inside the C6 payload. -/
theorem c6_val_duration (b0 b1 b2 b3 b4 b5 b6 b7 s : Nat) :
    getAsF64
      [0x44, 0x89, 0x88, b0, b1, b2, b3, b4, b5, b6, b7,
       0x2A, 0xD7, 0xB1, 0x81, s] 3 8 =
      (decodeF64Bytes [b0, b1, b2, b3, b4, b5, b6, b7], 11) := by
  simp only [nextElementHeader, vintWithMarker, vintSize, vintLen, sliceBytes,
    beBytes, getAsU64, getAsF64, List.length_cons, List.length_nil,
    List.getD_cons_zero, List.getD_cons_succ, List.drop_zero, List.drop_succ_cons,
    List.drop_nil, List.take_succ_cons, List.take_zero, List.take_nil, List.getD_nil]
  norm_num [beBytes]

/-- Header decode of the trailing TimestampScale element in the C6 payload. -/
theorem c6_hdr_scale (b0 b1 b2 b3 b4 b5 b6 b7 s : Nat) :
    nextElementHeader
      [0x44, 0x89, 0x88, b0, b1, b2, b3, b4, b5, b6, b7,
       0x2A, 0xD7, 0xB1, 0x81, s] 11 = .ok (⟨0x2AD7B1, 4, 1⟩, 15) := by
  rw [nextElementHeader_drop
    [0x44, 0x89, 0x88, b0, b1, b2, b3, b4, b5, b6, b7, 0x2A, 0xD7, 0xB1, 0x81, s]
    11 0 11 (by simp) rfl]
  rw [show ([0x44, 0x89, 0x88, b0, b1, b2, b3, b4, b5, b6, b7,
      0x2A, 0xD7, 0xB1, 0x81, s] : List Nat).drop 11 =
      [0x2A, 0xD7, 0xB1, 0x81, s] from rfl]
  simp only [nextElementHeader, vintWithMarker, vintSize, vintLen, sliceBytes,
    beBytes, getAsU64, getAsF64, List.length_cons, List.length_nil,
    List.getD_cons_zero, List.getD_cons_succ, List.drop_zero, List.drop_succ_cons,
    List.drop_nil, List.take_succ_cons, List.take_zero, List.take_nil, List.getD_nil]
  norm_num [beBytes]

/-- Integer decode of the trailing TimestampScale value in the C6 payload. -/
theorem c6_val_scale (b0 b1 b2 b3 b4 b5 b6 b7 s : Nat) :
    getAsU64
      [0x44, 0x89, 0x88, b0, b1, b2, b3, b4, b5, b6, b7,
       0x2A, 0xD7, 0xB1, 0x81, s] 15 1 = (some s, 16) := by
  rw [getAsU64_drop
    [0x44, 0x89, 0x88, b0, b1, b2, b3, b4, b5, b6, b7, 0x2A, 0xD7, 0xB1, 0x81, s]
    11 4 15 1 (by simp) rfl]
  rw [show ([0x44, 0x89, 0x88, b0, b1, b2, b3, b4, b5, b6, b7,
      0x2A, 0xD7, 0xB1, 0x81, s] : List Nat).drop 11 =
      [0x2A, 0xD7, 0xB1, 0x81, s] from rfl]
  simp only [nextElementHeader, vintWithMarker, vintSize, vintLen, sliceBytes,
    beBytes, getAsU64, getAsF64, List.length_cons, List.length_nil,
    List.getD_cons_zero, List.getD_cons_succ, List.drop_zero, List.drop_succ_cons,
    List.drop_nil, List.take_succ_cons, List.take_zero, List.take_nil, List.getD_nil]
  norm_num [beBytes]

/-- C6: an Info payload whose Duration element (eight-byte float payload
`b0..b7`, decoding to the value `v`) is not preceded by any TimestampScale
element yields `duration = v * 1000000`, the default scale; a TimestampScale
element appearing after the Duration (here with an arbitrary one-byte value
`s`) does not retroactively change the duration — the single forward pass
uses the scale seen so far. -/
theorem c6_duration_default_scale
    (b0 b1 b2 b3 b4 b5 b6 b7 s : Nat) (v : ℚ)
    (hdec : decodeF64Bytes [b0, b1, b2, b3, b4, b5, b6, b7] = some v) :
    parse_segment_info_body
        [0x44, 0x89, 0x88, b0, b1, b2, b3, b4, b5, b6, b7,
         0x2A, 0xD7, 0xB1, 0x81, s] = .ok ⟨v * 1000000, 0⟩ := by
  rw [parse_segment_info_body]
  rw [show ([0x44, 0x89, 0x88, b0, b1, b2, b3, b4, b5, b6, b7,
      0x2A, 0xD7, 0xB1, 0x81, s] : List Nat).length = 16 by simp]
  rw [segInfoBodyF_step, if_neg (by simp), c6_hdr_duration]
  try dsimp only
  rw [if_neg (by decide), if_pos (by decide)]
  try dsimp only
  rw [c6_val_duration, hdec]
  try dsimp only
  rw [show (16 : Nat) = 15 + 1 from rfl, segInfoBodyF_step, if_neg (by simp),
    c6_hdr_scale]
  try dsimp only
  rw [if_pos (by decide)]
  try dsimp only
  rw [c6_val_scale]
  try dsimp only
  rw [show (15 : Nat) = 14 + 1 from rfl, segInfoBodyF_step, if_pos (by simp)]
  simp

/-- C6 witness: the theorem applied at the eight-byte encoding of the float
1.0 (which decodes exactly to the rational 1). -/
theorem c6_duration_default_scale_witness :
    parse_segment_info_body
        [0x44, 0x89, 0x88, 0x3F, 0xF0, 0, 0, 0, 0, 0, 0,
         0x2A, 0xD7, 0xB1, 0x81, 9] = .ok ⟨1 * 1000000, 0⟩ :=
  c6_duration_default_scale 0x3F 0xF0 0 0 0 0 0 0 9 1 (by
    norm_num [decodeF64Bytes, beBytes])

/-! ### Claim C3 -/

/-- C3: a fully buffered SeekHead payload made of a valid Seek entry, a
corrupted Seek entry (rejected as `InvalidSeekEntry`, e.g. because its
SeekPosition declares a width other than 4 or 8), and another valid Seek
entry parses to a table containing both valid mappings: the corrupted entry
is skipped and does not fail the SeekHead parse. -/
theorem c3_seek_head_skips_corrupt_entry
    (s : List Nat) (e1 e3 : SeekEntry) (p1 p2 : Nat)
    (h1 : parse_seek_entry s 0 = (.ok (some e1), p1))
    (h2 : parse_seek_entry s p1 = (.error .InvalidSeekEntry, p2))
    (h3 : parse_seek_entry s p2 = (.ok (some e3), s.length))
    (hp1 : 0 < p1) (hp2 : p1 < p2) (hp3 : p2 < s.length)
    (hne : e1.seek_id ≠ e3.seek_id) :
    parse_seek_head s =
        .ok [(e1.seek_id, e1.seek_pos), (e3.seek_id, e3.seek_pos)] ∧
      lookupEntry [(e1.seek_id, e1.seek_pos), (e3.seek_id, e3.seek_pos)]
        e1.seek_id = some e1.seek_pos ∧
      lookupEntry [(e1.seek_id, e1.seek_pos), (e3.seek_id, e3.seek_pos)]
        e3.seek_id = some e3.seek_pos := by
  obtain ⟨k, hk⟩ : ∃ k, s.length = k + 3 := ⟨s.length - 3, by omega⟩
  refine ⟨?_, by simp [lookupEntry], by simp [lookupEntry, hne]⟩
  unfold parse_seek_head
  rw [hk]
  rw [parseSeekHeadF_step, if_neg (show ¬s.length ≤ 0 by omega), h1]
  dsimp only
  rw [show insertEntry [] e1.seek_id e1.seek_pos = [(e1.seek_id, e1.seek_pos)]
    from by simp [insertEntry]]
  rw [show k + 3 = (k + 2) + 1 from rfl]
  rw [parseSeekHeadF_step, if_neg (show ¬s.length ≤ p1 by omega), h2]
  dsimp only
  rw [show k + 2 = (k + 1) + 1 from rfl]
  rw [parseSeekHeadF_step, if_neg (show ¬s.length ≤ p2 by omega), h3]
  dsimp only
  rw [show insertEntry [(e1.seek_id, e1.seek_pos)] e3.seek_id e3.seek_pos =
      [(e1.seek_id, e1.seek_pos), (e3.seek_id, e3.seek_pos)]
    from by simp [insertEntry, hne]]
  exact parseSeekHeadF_done _ _ _ _ (le_refl _)

/-- C3 witness: the theorem applied to a concrete SeekHead payload — a valid
entry mapping the Info ID to position 0x32, a corrupted entry whose
SeekPosition declares width 3, and a valid entry mapping the Tracks ID to
position 0x40. -/
theorem c3_seek_head_skips_corrupt_entry_witness :
    parse_seek_head
        [0x4D, 0xBB, 0x8E, 0x53, 0xAB, 0x84, 0x15, 0x49, 0xA9, 0x66,
         0x53, 0xAC, 0x84, 0x00, 0x00, 0x00, 0x32,
         0x4D, 0xBB, 0x8D, 0x53, 0xAB, 0x84, 0x1C, 0x53, 0xBB, 0x6B,
         0x53, 0xAC, 0x83, 0x00, 0x00, 0x01,
         0x4D, 0xBB, 0x8E, 0x53, 0xAB, 0x84, 0x16, 0x54, 0xAE, 0x6B,
         0x53, 0xAC, 0x84, 0x00, 0x00, 0x00, 0x40] =
        .ok [(0x1549A966, 0x32), (0x1654AE6B, 0x40)] ∧
      lookupEntry [(0x1549A966, 0x32), (0x1654AE6B, 0x40)] 0x1549A966 =
        some 0x32 ∧
      lookupEntry [(0x1549A966, 0x32), (0x1654AE6B, 0x40)] 0x1654AE6B =
        some 0x40 :=
  c3_seek_head_skips_corrupt_entry
    [0x4D, 0xBB, 0x8E, 0x53, 0xAB, 0x84, 0x15, 0x49, 0xA9, 0x66,
     0x53, 0xAC, 0x84, 0x00, 0x00, 0x00, 0x32,
     0x4D, 0xBB, 0x8D, 0x53, 0xAB, 0x84, 0x1C, 0x53, 0xBB, 0x6B,
     0x53, 0xAC, 0x83, 0x00, 0x00, 0x01,
     0x4D, 0xBB, 0x8E, 0x53, 0xAB, 0x84, 0x16, 0x54, 0xAE, 0x6B,
     0x53, 0xAC, 0x84, 0x00, 0x00, 0x00, 0x40]
    ⟨0x1549A966, 0x32⟩ ⟨0x1654AE6B, 0x40⟩ 17 33
    (by decide) (by decide) (by decide) (by decide) (by decide) (by decide)
    (by decide)

/-! ### Claim C10 -/

/-- Child-loop evaluation for the C10 entry: the loop decodes the SeekID
child, then the SeekPosition child, and breaks as soon as both fields are
valid — the trailing bytes `g` are never examined. -/
theorem c10_children (g : List Nat) (b0 b1 b2 b3 : Nat)
    (hpos : beBytes [b0, b1, b2, b3] ≠ 0) :
    seekChildrenF
        ((0x53 :: 0xAB :: 0x84 :: 0x15 :: 0x49 :: 0xA9 :: 0x66 :: 0x53 :: 0xAC ::
        0x84 :: b0 :: b1 :: b2 :: b3 :: g : List Nat).length + 1)
        (0x53 :: 0xAB :: 0x84 :: 0x15 :: 0x49 :: 0xA9 :: 0x66 :: 0x53 :: 0xAC ::
        0x84 :: b0 :: b1 :: b2 :: b3 :: g) 0 INVALID_ELEMENT_ID 0 =
      .ok (0x1549A966, beBytes [b0, b1, b2, b3]) := by
  have hblen : (0x53 :: 0xAB :: 0x84 :: 0x15 :: 0x49 :: 0xA9 :: 0x66 :: 0x53 :: 0xAC ::
        0x84 :: b0 :: b1 :: b2 :: b3 :: g : List Nat).length = g.length + 14 := by
    simp only [List.length_cons] <;> omega
  have hw1 : vintWithMarker (0x53 :: 0xAB :: 0x84 :: 0x15 :: 0x49 :: 0xA9 :: 0x66 :: 0x53 :: 0xAC ::
        0x84 :: b0 :: b1 :: b2 :: b3 :: g) 0 = .ok (0x53AB, 2) := by
    simp only [nextElementHeader, vintWithMarker, vintSize, vintLen, sliceBytes,
      beBytes, getAsU64, getAsF64, List.length_cons, List.length_nil,
      List.getD_cons_zero, List.getD_cons_succ, List.drop_zero, List.drop_succ_cons,
      List.drop_nil, List.take_succ_cons, List.take_zero, List.take_nil, List.getD_nil]
    repeat (first | rw [if_neg (by omega)] | norm_num [beBytes])
  have hs1 : vintSize (0x53 :: 0xAB :: 0x84 :: 0x15 :: 0x49 :: 0xA9 :: 0x66 :: 0x53 :: 0xAC ::
        0x84 :: b0 :: b1 :: b2 :: b3 :: g) 2 = .ok (4, 3) := by
    simp only [nextElementHeader, vintWithMarker, vintSize, vintLen, sliceBytes,
      beBytes, getAsU64, getAsF64, List.length_cons, List.length_nil,
      List.getD_cons_zero, List.getD_cons_succ, List.drop_zero, List.drop_succ_cons,
      List.drop_nil, List.take_succ_cons, List.take_zero, List.take_nil, List.getD_nil]
    repeat (first | rw [if_neg (by omega)] | norm_num [beBytes])
  have hw2 : vintWithMarker (0x53 :: 0xAB :: 0x84 :: 0x15 :: 0x49 :: 0xA9 :: 0x66 :: 0x53 :: 0xAC ::
        0x84 :: b0 :: b1 :: b2 :: b3 :: g) 3 = .ok (0x1549A966, 7) := by
    simp only [nextElementHeader, vintWithMarker, vintSize, vintLen, sliceBytes,
      beBytes, getAsU64, getAsF64, List.length_cons, List.length_nil,
      List.getD_cons_zero, List.getD_cons_succ, List.drop_zero, List.drop_succ_cons,
      List.drop_nil, List.take_succ_cons, List.take_zero, List.take_nil, List.getD_nil]
    repeat (first | rw [if_neg (by omega)] | norm_num [beBytes])
  have hw3 : vintWithMarker (0x53 :: 0xAB :: 0x84 :: 0x15 :: 0x49 :: 0xA9 :: 0x66 :: 0x53 :: 0xAC ::
        0x84 :: b0 :: b1 :: b2 :: b3 :: g) 7 = .ok (0x53AC, 9) := by
    simp only [nextElementHeader, vintWithMarker, vintSize, vintLen, sliceBytes,
      beBytes, getAsU64, getAsF64, List.length_cons, List.length_nil,
      List.getD_cons_zero, List.getD_cons_succ, List.drop_zero, List.drop_succ_cons,
      List.drop_nil, List.take_succ_cons, List.take_zero, List.take_nil, List.getD_nil]
    repeat (first | rw [if_neg (by omega)] | norm_num [beBytes])
  have hs2 : vintSize (0x53 :: 0xAB :: 0x84 :: 0x15 :: 0x49 :: 0xA9 :: 0x66 :: 0x53 :: 0xAC ::
        0x84 :: b0 :: b1 :: b2 :: b3 :: g) 9 = .ok (4, 10) := by
    simp only [nextElementHeader, vintWithMarker, vintSize, vintLen, sliceBytes,
      beBytes, getAsU64, getAsF64, List.length_cons, List.length_nil,
      List.getD_cons_zero, List.getD_cons_succ, List.drop_zero, List.drop_succ_cons,
      List.drop_nil, List.take_succ_cons, List.take_zero, List.take_nil, List.getD_nil]
    repeat (first | rw [if_neg (by omega)] | norm_num [beBytes])
  have hsp : sliceBytes (0x53 :: 0xAB :: 0x84 :: 0x15 :: 0x49 :: 0xA9 :: 0x66 :: 0x53 :: 0xAC ::
        0x84 :: b0 :: b1 :: b2 :: b3 :: g) 10 4 = [b0, b1, b2, b3] := by
    unfold sliceBytes
    rw [show (0x53 :: 0xAB :: 0x84 :: 0x15 :: 0x49 :: 0xA9 :: 0x66 :: 0x53 :: 0xAC ::
        0x84 :: b0 :: b1 :: b2 :: b3 :: g : List Nat).drop 10 = b0 :: b1 :: b2 :: b3 :: g from rfl]
    simp
  rw [hblen]
  rw [seekChildrenF_step, if_neg (show ¬(0x53 :: 0xAB :: 0x84 :: 0x15 :: 0x49 :: 0xA9 :: 0x66 :: 0x53 :: 0xAC ::
        0x84 :: b0 :: b1 :: b2 :: b3 :: g : List Nat).length ≤ 0 by simp only [List.length_cons] <;> omega)]
  rw [hw1]
  dsimp only
  rw [hs1]
  dsimp only
  rw [if_pos (show (0x53AB : Nat) = SEEK_ID_ID from by decide)]
  rw [hw2]
  dsimp only
  rw [if_neg (show ¬(0x1549A966 % 2 ^ 32 ≠ INVALID_ELEMENT_ID ∧ (0 : Nat) ≠ 0)
    from by simp)]
  rw [show g.length + 14 = (g.length + 13) + 1 from rfl]
  rw [seekChildrenF_step, if_neg (show ¬(0x53 :: 0xAB :: 0x84 :: 0x15 :: 0x49 :: 0xA9 :: 0x66 :: 0x53 :: 0xAC ::
        0x84 :: b0 :: b1 :: b2 :: b3 :: g : List Nat).length ≤ 7 by simp only [List.length_cons] <;> omega)]
  rw [hw3]
  dsimp only
  rw [hs2]
  dsimp only
  rw [if_neg (show ¬(0x53AC : Nat) = SEEK_ID_ID from by decide)]
  rw [if_pos (show (0x53AC : Nat) = SEEK_POSITION_ID from by decide)]
  rw [if_neg (show ¬(4 : Nat) = 8 from by decide)]
  rw [if_pos (show (4 : Nat) = 4 from rfl)]
  rw [if_neg (show ¬(0x53 :: 0xAB :: 0x84 :: 0x15 :: 0x49 :: 0xA9 :: 0x66 :: 0x53 :: 0xAC ::
        0x84 :: b0 :: b1 :: b2 :: b3 :: g : List Nat).length < 10 + 4 by simp only [List.length_cons] <;> omega)]
  rw [hsp]
  rw [if_pos (show 0x1549A966 % 2 ^ 32 ≠ INVALID_ELEMENT_ID ∧
      beBytes [b0, b1, b2, b3] ≠ 0 from ⟨by decide, hpos⟩)]
  norm_num

/-- C10: `parse_seek_entry` stops scanning a Seek element's children as soon
as a valid SeekID and a non-zero SeekPosition have been decoded; the
remaining bytes `g` of the Seek payload — arbitrary, including malformed
children — are never read, and the entry is returned as valid with the
cursor placed after the whole element. -/
theorem c10_early_break_ignores_trailing (g : List Nat) (b0 b1 b2 b3 : Nat)
    (hg : g.length ≤ 100) (hpos : beBytes [b0, b1, b2, b3] ≠ 0) :
    parse_seek_entry
        (0x4D :: 0xBB :: (0x8E + g.length) :: 0x53 :: 0xAB :: 0x84 :: 0x15 :: 0x49 ::
        0xA9 :: 0x66 :: 0x53 :: 0xAC :: 0x84 :: b0 :: b1 :: b2 :: b3 :: g) 0 =
      (.ok (some ⟨0x1549A966, beBytes [b0, b1, b2, b3]⟩), g.length + 17) := by
  have hlen : (0x4D :: 0xBB :: (0x8E + g.length) :: 0x53 :: 0xAB :: 0x84 :: 0x15 :: 0x49 ::
        0xA9 :: 0x66 :: 0x53 :: 0xAC :: 0x84 :: b0 :: b1 :: b2 :: b3 :: g : List Nat).length = g.length + 17 := by
    simp only [List.length_cons] <;> omega
  have hv1 : vintWithMarker (0x4D :: 0xBB :: (0x8E + g.length) :: 0x53 :: 0xAB :: 0x84 :: 0x15 :: 0x49 ::
        0xA9 :: 0x66 :: 0x53 :: 0xAC :: 0x84 :: b0 :: b1 :: b2 :: b3 :: g) 0 = .ok (0x4DBB, 2) := by
    simp only [nextElementHeader, vintWithMarker, vintSize, vintLen, sliceBytes,
      beBytes, getAsU64, getAsF64, List.length_cons, List.length_nil,
      List.getD_cons_zero, List.getD_cons_succ, List.drop_zero, List.drop_succ_cons,
      List.drop_nil, List.take_succ_cons, List.take_zero, List.take_nil, List.getD_nil]
    repeat (first | rw [if_neg (by omega)] | norm_num [beBytes])
  have hv2 : vintSize (0x4D :: 0xBB :: (0x8E + g.length) :: 0x53 :: 0xAB :: 0x84 :: 0x15 :: 0x49 ::
        0xA9 :: 0x66 :: 0x53 :: 0xAC :: 0x84 :: b0 :: b1 :: b2 :: b3 :: g) 2 = .ok (g.length + 14, 3) := by
    rw [vintSize_one (0x4D :: 0xBB :: (0x8E + g.length) :: 0x53 :: 0xAB :: 0x84 :: 0x15 :: 0x49 ::
        0xA9 :: 0x66 :: 0x53 :: 0xAC :: 0x84 :: b0 :: b1 :: b2 :: b3 :: g) 2 (0x8E + g.length) (by omega)
      (by simp) (by simp only [List.length_cons] <;> omega)]
    simp only [Except.ok.injEq, Prod.mk.injEq]
    constructor <;> first | omega | trivial
  have hbuf : sliceBytes (0x4D :: 0xBB :: (0x8E + g.length) :: 0x53 :: 0xAB :: 0x84 :: 0x15 :: 0x49 ::
        0xA9 :: 0x66 :: 0x53 :: 0xAC :: 0x84 :: b0 :: b1 :: b2 :: b3 :: g) 3 (g.length + 14) =
      (0x53 :: 0xAB :: 0x84 :: 0x15 :: 0x49 :: 0xA9 :: 0x66 :: 0x53 :: 0xAC ::
        0x84 :: b0 :: b1 :: b2 :: b3 :: g) := by
    unfold sliceBytes
    rw [show (0x4D :: 0xBB :: (0x8E + g.length) :: 0x53 :: 0xAB :: 0x84 :: 0x15 :: 0x49 ::
        0xA9 :: 0x66 :: 0x53 :: 0xAC :: 0x84 :: b0 :: b1 :: b2 :: b3 :: g : List Nat).drop 3 =
        (0x53 :: 0xAB :: 0x84 :: 0x15 :: 0x49 :: 0xA9 :: 0x66 :: 0x53 :: 0xAC ::
        0x84 :: b0 :: b1 :: b2 :: b3 :: g) from rfl]
    rw [List.take_of_length_le (by simp only [List.length_cons] <;> omega)]
  unfold parse_seek_entry
  rw [hv1]
  dsimp only
  rw [hv2]
  dsimp only
  rw [if_neg (show ¬(0x4D :: 0xBB :: (0x8E + g.length) :: 0x53 :: 0xAB :: 0x84 :: 0x15 :: 0x49 ::
        0xA9 :: 0x66 :: 0x53 :: 0xAC :: 0x84 :: b0 :: b1 :: b2 :: b3 :: g : List Nat).length - 3 < g.length + 14 by simp only [List.length_cons] <;> omega)]
  rw [if_neg (show ¬(0x4DBB : Nat) ≠ SEEK_ELEMENT_ID from by decide)]
  rw [hbuf]
  rw [c10_children g b0 b1 b2 b3 hpos]
  dsimp only
  rw [if_neg (show ¬(0x1549A966 = INVALID_ELEMENT_ID ∨
      beBytes [b0, b1, b2, b3] = 0) from by
    push_neg
    exact ⟨by decide, hpos⟩)]
  simp only [Prod.mk.injEq]
  constructor <;> first | omega | trivial

/-- C10 witness: the theorem applied with three bytes of trailing garbage
(0x42 0x42 0x42, not a valid child element) after the SeekID and SeekPosition
children; the entry still parses and maps the Info ID to position 0x32. -/
theorem c10_early_break_ignores_trailing_witness :
    parse_seek_entry
        [0x4D, 0xBB, 0x91, 0x53, 0xAB, 0x84, 0x15, 0x49, 0xA9, 0x66,
         0x53, 0xAC, 0x84, 0x00, 0x00, 0x00, 0x32, 0x42, 0x42, 0x42] 0 =
      (.ok (some ⟨0x1549A966, 0x32⟩), 20) :=
  c10_early_break_ignores_trailing [0x42, 0x42, 0x42] 0 0 0 0x32
    (by decide) (by decide)

/-! ### Claim C2 -/

/-- C2 counterexample: a Tracks element whose first TrackEntry is a non-video
track (its only child, id 0x86, has no Video child) followed by a TrackEntry
containing a Video element with PixelWidth 2 and PixelHeight 3.  The claim
expects the second TrackEntry's dimensions, but `parse_tracks_info` hands
only the FIRST TrackEntry's payload to `parse_track` (the `travel_while`
with predicate `id == VideoTrack` stops at the first child), so the video
track is never examined and the extractor reports no result. -/
theorem c2_counterexample :
    parse_tracks_info
        [0x16, 0x54, 0xAE, 0x6B, 0x8F,
         0xAE, 0x83, 0x86, 0x81, 0x41,
         0xAE, 0x88, 0xE0, 0x86, 0xB0, 0x81, 0x02, 0xBA, 0x81, 0x03] 0 =
        .ok none ∧
      (.ok none : Except ParseWebmFailed (Option TracksInfo)) ≠
        .ok (some ⟨2, 3⟩) := by decide

/-- Video-track extraction for the C2 payload: both pixel elements present,
each decoded from the start of the Video payload. -/
theorem c2_video_track (pw ph : Nat) :
    parse_video_track [0xB0, 0x81, pw, 0xBA, 0x81, ph] = .ok ⟨pw, ph⟩ := by
  simp [parse_video_track, travel_while, travelWhileF, nextElementHeader,
    vintWithMarker, vintSize, vintLen, sliceBytes, beBytes, getAsU64,
    PIXEL_WIDTH_ID, PIXEL_HEIGHT_ID, VIDEO_TRACK_ID, ebmlToWebm]

/-- TrackEntry extraction for the C2 payload: the first child is the Video
element, whose payload is handed to `parse_video_track`. -/
theorem c2_track (pw ph : Nat) :
    parse_track [0xE0, 0x86, 0xB0, 0x81, pw, 0xBA, 0x81, ph] =
      .ok (some ⟨pw, ph⟩) := by
  have hh3 : nextElementHeader [0xE0, 0x86, 0xB0, 0x81, pw, 0xBA, 0x81, ph] 0 =
      .ok (⟨0xE0, 2, 6⟩, 2) := by
    simp only [nextElementHeader, vintWithMarker, vintSize, vintLen, sliceBytes,
      beBytes, getAsU64, getAsF64, List.length_cons, List.length_nil,
      List.getD_cons_zero, List.getD_cons_succ, List.drop_zero, List.drop_succ_cons,
      List.drop_nil, List.take_succ_cons, List.take_zero, List.take_nil, List.getD_nil]
    repeat (first | rw [if_neg (by omega)] | norm_num [beBytes])
  have hsl2 : sliceBytes [0xE0, 0x86, 0xB0, 0x81, pw, 0xBA, 0x81, ph] 2 6 =
      [0xB0, 0x81, pw, 0xBA, 0x81, ph] := by
    simp [sliceBytes]
  unfold parse_track
  rw [parseTrackF_step, if_neg (by simp), hh3]
  dsimp only
  rw [if_pos (show isTracksId (0xE0 : Nat) = true from by decide)]
  rw [if_pos (show (0xE0 : Nat) = VIDEO_TRACK_ID from by decide)]
  rw [hsl2, c2_video_track pw ph]

/-- C2 (amended): the tracks extractor inspects only the first TrackEntry of
the Tracks payload.  When that first TrackEntry contains a Video element with
PixelWidth `pw` and PixelHeight `ph`, the extractor returns those dimensions,
and any bytes `g` following that TrackEntry — further TrackEntries included —
are never examined. -/
theorem c2_first_track_entry_wins (g : List Nat) (pw ph : Nat)
    (hg : g.length ≤ 100) :
    parse_tracks_info
        (0x16 :: 0x54 :: 0xAE :: 0x6B :: (0x8A + g.length) :: 0xAE :: 0x88 :: 0xE0 ::
        0x86 :: 0xB0 :: 0x81 :: pw :: 0xBA :: 0x81 :: ph :: g) 0 = .ok (some ⟨pw, ph⟩) := by
  have hw : vintWithMarker (0x16 :: 0x54 :: 0xAE :: 0x6B :: (0x8A + g.length) :: 0xAE :: 0x88 :: 0xE0 ::
        0x86 :: 0xB0 :: 0x81 :: pw :: 0xBA :: 0x81 :: ph :: g) 0 = .ok (0x1654AE6B, 4) := by
    simp only [nextElementHeader, vintWithMarker, vintSize, vintLen, sliceBytes,
      beBytes, getAsU64, getAsF64, List.length_cons, List.length_nil,
      List.getD_cons_zero, List.getD_cons_succ, List.drop_zero, List.drop_succ_cons,
      List.drop_nil, List.take_succ_cons, List.take_zero, List.take_nil, List.getD_nil]
    repeat (first | rw [if_neg (by omega)] | norm_num [beBytes])
  have hsz : vintSize (0x16 :: 0x54 :: 0xAE :: 0x6B :: (0x8A + g.length) :: 0xAE :: 0x88 :: 0xE0 ::
        0x86 :: 0xB0 :: 0x81 :: pw :: 0xBA :: 0x81 :: ph :: g) 4 = .ok (g.length + 10, 5) := by
    rw [vintSize_one (0x16 :: 0x54 :: 0xAE :: 0x6B :: (0x8A + g.length) :: 0xAE :: 0x88 :: 0xE0 ::
        0x86 :: 0xB0 :: 0x81 :: pw :: 0xBA :: 0x81 :: ph :: g) 4 (0x8A + g.length) (by omega)
      (by simp) (by simp only [List.length_cons] <;> omega)]
    simp only [Except.ok.injEq, Prod.mk.injEq]
    constructor <;> first | omega | trivial
  have hh : nextElementHeader (0x16 :: 0x54 :: 0xAE :: 0x6B :: (0x8A + g.length) :: 0xAE :: 0x88 :: 0xE0 ::
        0x86 :: 0xB0 :: 0x81 :: pw :: 0xBA :: 0x81 :: ph :: g) 0 =
      .ok (⟨0x1654AE6B, 5, g.length + 10⟩, 5) := by
    unfold nextElementHeader
    rw [hw]
    dsimp only
    rw [hsz]
  have hchunk : sliceBytes (0x16 :: 0x54 :: 0xAE :: 0x6B :: (0x8A + g.length) :: 0xAE :: 0x88 :: 0xE0 ::
        0x86 :: 0xB0 :: 0x81 :: pw :: 0xBA :: 0x81 :: ph :: g) 5 (g.length + 10) =
      (0xAE :: 0x88 :: 0xE0 :: 0x86 :: 0xB0 :: 0x81 :: pw :: 0xBA :: 0x81 :: ph :: g) := by
    unfold sliceBytes
    rw [show (0x16 :: 0x54 :: 0xAE :: 0x6B :: (0x8A + g.length) :: 0xAE :: 0x88 :: 0xE0 ::
        0x86 :: 0xB0 :: 0x81 :: pw :: 0xBA :: 0x81 :: ph :: g : List Nat).drop 5 = (0xAE :: 0x88 :: 0xE0 :: 0x86 :: 0xB0 :: 0x81 :: pw :: 0xBA :: 0x81 :: ph :: g) from rfl]
    rw [List.take_of_length_le (by simp only [List.length_cons] <;> omega)]
  have hh2 : nextElementHeader (0xAE :: 0x88 :: 0xE0 :: 0x86 :: 0xB0 :: 0x81 :: pw :: 0xBA :: 0x81 :: ph :: g) 0 = .ok (⟨0xAE, 2, 8⟩, 2) := by
    simp only [nextElementHeader, vintWithMarker, vintSize, vintLen, sliceBytes,
      beBytes, getAsU64, getAsF64, List.length_cons, List.length_nil,
      List.getD_cons_zero, List.getD_cons_succ, List.drop_zero, List.drop_succ_cons,
      List.drop_nil, List.take_succ_cons, List.take_zero, List.take_nil, List.getD_nil]
    repeat (first | rw [if_neg (by omega)] | norm_num [beBytes])
  have htw : travel_while (0xAE :: 0x88 :: 0xE0 :: 0x86 :: 0xB0 :: 0x81 :: pw :: 0xBA :: 0x81 :: ph :: g) (fun h => h.id = VIDEO_TRACK_ID) 0 =
      .ok (⟨0xAE, 2, 8⟩, 2) := by
    unfold travel_while
    rw [travelWhileF_step, hh2]
    dsimp only
    rw [if_neg (show ¬(decide ((0xAE : Nat) = VIDEO_TRACK_ID) = true) from
      by decide)]
  have hsl : sliceBytes (0xAE :: 0x88 :: 0xE0 :: 0x86 :: 0xB0 :: 0x81 :: pw :: 0xBA :: 0x81 :: ph :: g) 2 8 =
      [0xE0, 0x86, 0xB0, 0x81, pw, 0xBA, 0x81, ph] := by
    unfold sliceBytes
    rw [show (0xAE :: 0x88 :: 0xE0 :: 0x86 :: 0xB0 :: 0x81 :: pw :: 0xBA :: 0x81 :: ph :: g : List Nat).drop 2 =
        0xE0 :: 0x86 :: 0xB0 :: 0x81 :: pw :: 0xBA :: 0x81 :: ph :: g from rfl]
    simp
  unfold parse_tracks_info
  rw [if_neg (show ¬(0x16 :: 0x54 :: 0xAE :: 0x6B :: (0x8A + g.length) :: 0xAE :: 0x88 :: 0xE0 ::
        0x86 :: 0xB0 :: 0x81 :: pw :: 0xBA :: 0x81 :: ph :: g : List Nat).length ≤ 0 by simp only [List.length_cons] <;> omega), hh]
  dsimp only
  rw [if_neg (show ¬(0x16 :: 0x54 :: 0xAE :: 0x6B :: (0x8A + g.length) :: 0xAE :: 0x88 :: 0xE0 ::
        0x86 :: 0xB0 :: 0x81 :: pw :: 0xBA :: 0x81 :: ph :: g : List Nat).length - 5 < g.length + 10 by simp only [List.length_cons] <;> omega)]
  rw [hchunk, htw]
  dsimp only
  rw [if_neg (show ¬(0xAE :: 0x88 :: 0xE0 :: 0x86 :: 0xB0 :: 0x81 :: pw :: 0xBA :: 0x81 :: ph :: g : List Nat).length - 2 < 8 by simp only [List.length_cons] <;> omega)]
  rw [hsl, c2_track pw ph]
  rfl

/-- C2 witness: the amended theorem applied with a trailing (never examined)
second TrackEntry after the first, video, TrackEntry. -/
theorem c2_first_track_entry_wins_witness :
    parse_tracks_info
        [0x16, 0x54, 0xAE, 0x6B, 0x8F,
         0xAE, 0x88, 0xE0, 0x86, 0xB0, 0x81, 0x02, 0xBA, 0x81, 0x03,
         0xAE, 0x83, 0x86, 0x81, 0x41] 0 = .ok (some ⟨2, 3⟩) :=
  c2_first_track_entry_wins [0xAE, 0x83, 0x86, 0x81, 0x41] 2 3 (by decide)

/-! ### Claim C5 -/

set_option maxHeartbeats 2000000 in
/-- C5 counterexample: when the SeekHead is not the first element at the
offset handed to `parse_seeks` (here a three-byte Void element precedes it),
the resolved offset equals the SeekHead element's own start offset (3) plus
`seek_pos` (0x32), which is NOT the passed-in offset (0) plus `seek_pos`. -/
theorem c5_counterexample :
    parse_seeks
        [0xEC, 0x81, 0x00,
         0x11, 0x4D, 0x9B, 0x74, 0x91,
         0x4D, 0xBB, 0x8E, 0x53, 0xAB, 0x84, 0x15, 0x49, 0xA9, 0x66,
         0x53, 0xAC, 0x84, 0x00, 0x00, 0x00, 0x32] 0 =
        .ok [(0x1549A966, 3 + 0x32)] ∧
      (3 + 0x32 : Nat) ≠ 0 + 0x32 := by decide

/-- Locating the SeekHead element behind a Void element: the returned header
position is just after the SeekHead header, `vb.length + 7`. -/
theorem c5_find (vb s : List Nat) :
    find_element_by_id
        (0xEC :: (0x80 + vb.length) :: (vb ++ (0x11 :: 0x4D :: 0x9B :: 0x74 ::
        (0x80 + s.length) :: s))) SEEK_HEAD_ID 0 =
      .ok (⟨0x114D9B74, 5, s.length⟩, 2 + vb.length + 5) := by
  have hw : vintWithMarker (0x11 :: 0x4D :: 0x9B :: 0x74 :: (0x80 + s.length) :: s) 0 = .ok (0x114D9B74, 4) := by
    simp only [nextElementHeader, vintWithMarker, vintSize, vintLen, sliceBytes,
      beBytes, getAsU64, getAsF64, List.length_cons, List.length_nil,
      List.getD_cons_zero, List.getD_cons_succ, List.drop_zero, List.drop_succ_cons,
      List.drop_nil, List.take_succ_cons, List.take_zero, List.take_nil, List.getD_nil]
    repeat (first | rw [if_neg (by omega)] | norm_num [beBytes])
  have hhR : nextElementHeader (0x11 :: 0x4D :: 0x9B :: 0x74 :: (0x80 + s.length) :: s) 0 = .ok (⟨0x114D9B74, 5, s.length⟩, 5) := by
    unfold nextElementHeader
    rw [hw]
    dsimp only
    rw [vintSize_one (0x11 :: 0x4D :: 0x9B :: 0x74 :: (0x80 + s.length) :: s) 4 (0x80 + s.length) (by omega) (by simp)
      (by simp only [List.length_cons, List.length_append, List.length_nil] <;> omega)]
    dsimp only
    norm_num
  have hh0 : nextElementHeader (0xEC :: (0x80 + vb.length) :: (vb ++ (0x11 :: 0x4D :: 0x9B :: 0x74 ::
        (0x80 + s.length) :: s))) 0 = .ok (⟨0xEC, 2, vb.length⟩, 2) := by
    unfold nextElementHeader
    rw [vintWithMarker_one (0xEC :: (0x80 + vb.length) :: (vb ++ (0x11 :: 0x4D :: 0x9B :: 0x74 ::
        (0x80 + s.length) :: s))) 0 0xEC (by omega) (by simp)
      (by simp only [List.length_cons, List.length_append, List.length_nil] <;> omega)]
    dsimp only
    rw [vintSize_one (0xEC :: (0x80 + vb.length) :: (vb ++ (0x11 :: 0x4D :: 0x9B :: 0x74 ::
        (0x80 + s.length) :: s))) 1 (0x80 + vb.length) (by omega) (by simp)
      (by simp only [List.length_cons, List.length_append, List.length_nil] <;> omega)]
    dsimp only
    norm_num
  have hdropL : (0xEC :: (0x80 + vb.length) :: (vb ++ (0x11 :: 0x4D :: 0x9B :: 0x74 ::
        (0x80 + s.length) :: s)) : List Nat).drop (2 + vb.length) = (0x11 :: 0x4D :: 0x9B :: 0x74 :: (0x80 + s.length) :: s) := by
    rw [show (2 + vb.length) = (vb.length + 1) + 1 from by omega]
    rw [List.drop_succ_cons, List.drop_succ_cons, List.drop_left]
  have hh1 : nextElementHeader (0xEC :: (0x80 + vb.length) :: (vb ++ (0x11 :: 0x4D :: 0x9B :: 0x74 ::
        (0x80 + s.length) :: s))) (2 + vb.length) =
      .ok (⟨0x114D9B74, 5, s.length⟩, 2 + vb.length + 5) := by
    rw [nextElementHeader_drop (0xEC :: (0x80 + vb.length) :: (vb ++ (0x11 :: 0x4D :: 0x9B :: 0x74 ::
        (0x80 + s.length) :: s))) (2 + vb.length) 0 (2 + vb.length)
      (by simp only [List.length_cons, List.length_append, List.length_nil] <;> omega)
      (by omega)]
    rw [hdropL, hhR]
  have hlen : (0xEC :: (0x80 + vb.length) :: (vb ++ (0x11 :: 0x4D :: 0x9B :: 0x74 ::
        (0x80 + s.length) :: s)) : List Nat).length = vb.length + s.length + 7 := by
    simp only [List.length_cons, List.length_append, List.length_nil] <;> omega
  unfold find_element_by_id
  rw [hlen]
  rw [findByIdF_step,
    if_neg (show ¬(0xEC :: (0x80 + vb.length) :: (vb ++ (0x11 :: 0x4D :: 0x9B :: 0x74 ::
        (0x80 + s.length) :: s)) : List Nat).length ≤ 0
      by simp only [List.length_cons, List.length_append, List.length_nil] <;> omega),
    hh0]
  dsimp only
  rw [if_neg (show ¬(0xEC : Nat) = SEEK_HEAD_ID from by decide)]
  rw [if_neg (show ¬(0xEC :: (0x80 + vb.length) :: (vb ++ (0x11 :: 0x4D :: 0x9B :: 0x74 ::
        (0x80 + s.length) :: s)) : List Nat).length - 2 < vb.length
    by simp only [List.length_cons, List.length_append, List.length_nil] <;> omega)]
  rw [show vb.length + s.length + 7 = (vb.length + s.length + 6) + 1 from rfl]
  rw [findByIdF_step,
    if_neg (show ¬(0xEC :: (0x80 + vb.length) :: (vb ++ (0x11 :: 0x4D :: 0x9B :: 0x74 ::
        (0x80 + s.length) :: s)) : List Nat).length ≤ 2 + vb.length
      by simp only [List.length_cons, List.length_append, List.length_nil] <;> omega),
    hh1]
  dsimp only
  rw [if_pos (show (0x114D9B74 : Nat) = SEEK_HEAD_ID from by decide)]

/-- C5 (amended): every resolved seek offset is absolute and equals the
SeekHead element's own start offset plus that entry's `seek_pos`; this
coincides with the passed-in offset plus `seek_pos` only when the SeekHead is
the first element at the passed-in offset.  Here a Void element of arbitrary
payload `vb` precedes the SeekHead, whose element start is `vb.length + 2`,
and every table value is shifted by exactly that start offset. -/
theorem c5_offsets_relative_to_seekhead_start (vb s : List Nat)
    (tbl : List (Nat × Nat))
    (hvb : vb.length ≤ 100) (hs : s.length ≤ 100)
    (hparse : parse_seek_head s = .ok tbl) :
    parse_seeks
        (0xEC :: (0x80 + vb.length) :: (vb ++ (0x11 :: 0x4D :: 0x9B :: 0x74 ::
        (0x80 + s.length) :: s))) 0 =
      .ok (tbl.map fun kv => (kv.1, kv.2 + (vb.length + 2))) := by
  have hdropL : (0xEC :: (0x80 + vb.length) :: (vb ++ (0x11 :: 0x4D :: 0x9B :: 0x74 ::
        (0x80 + s.length) :: s)) : List Nat).drop (2 + vb.length) = (0x11 :: 0x4D :: 0x9B :: 0x74 :: (0x80 + s.length) :: s) := by
    rw [show (2 + vb.length) = (vb.length + 1) + 1 from by omega]
    rw [List.drop_succ_cons, List.drop_succ_cons, List.drop_left]
  have hslice : sliceBytes (0xEC :: (0x80 + vb.length) :: (vb ++ (0x11 :: 0x4D :: 0x9B :: 0x74 ::
        (0x80 + s.length) :: s))) (2 + vb.length + 5) s.length = s := by
    unfold sliceBytes
    rw [show (2 + vb.length + 5) = (2 + vb.length) + 5 from by omega]
    rw [← List.drop_drop, hdropL]
    rw [show (0x11 :: 0x4D :: 0x9B :: 0x74 :: (0x80 + s.length) :: s : List Nat).drop 5 = s from rfl]
    exact List.take_length s
  unfold parse_seeks
  rw [c5_find vb s]
  dsimp only
  rw [if_neg (show ¬(0xEC :: (0x80 + vb.length) :: (vb ++ (0x11 :: 0x4D :: 0x9B :: 0x74 ::
        (0x80 + s.length) :: s)) : List Nat).length - (2 + vb.length + 5) < s.length
    by simp only [List.length_cons, List.length_append, List.length_nil] <;> omega)]
  rw [hslice, hparse]
  dsimp only
  rw [show 2 + vb.length + 5 - 5 = vb.length + 2 from by omega]

/-- C5 witness: the amended theorem applied with a one-byte Void payload and
a single-entry SeekHead; the resolved offset is 3 + 0x32. -/
theorem c5_offsets_relative_to_seekhead_start_witness :
    parse_seeks
        [0xEC, 0x81, 0x00,
         0x11, 0x4D, 0x9B, 0x74, 0x91,
         0x4D, 0xBB, 0x8E, 0x53, 0xAB, 0x84, 0x15, 0x49, 0xA9, 0x66,
         0x53, 0xAC, 0x84, 0x00, 0x00, 0x00, 0x32] 0 =
      .ok [(0x1549A966, 0x32 + 3)] :=
  c5_offsets_relative_to_seekhead_start [0x00]
    [0x4D, 0xBB, 0x8E, 0x53, 0xAB, 0x84, 0x15, 0x49, 0xA9, 0x66,
     0x53, 0xAC, 0x84, 0x00, 0x00, 0x00, 0x32]
    [(0x1549A966, 0x32)] (by decide) (by decide) (by decide)

/-! ### Claim C1 -/

/-- Lifting an underlying success through the buffered loader. -/
theorem loadAndParse_ok {α : Type} (input : List Nat)
    (f : List Nat → Except ParsingError α) (a : α) (h : f input = .ok a) :
    loadAndParse input f = .ok a := by
  unfold loadAndParse
  rw [h]

/-- Lifting an underlying success through the positioned buffered loader. -/
theorem loadAndParseAt_ok {α : Type} (input : List Nat)
    (f : List Nat → Nat → Except ParsingError α) (p : Nat) (a : α)
    (h : f input p = .ok a) : loadAndParseAt input f p = .ok a := by
  unfold loadAndParseAt
  rw [h]

/-- A fatal failure passes through the buffered loader unchanged. -/
theorem loadAndParseAt_failed {α : Type} (input : List Nat)
    (f : List Nat → Nat → Except ParsingError α) (p : Nat) (s : String)
    (h : f input p = .error (.Failed s)) :
    loadAndParseAt input f p = .error (.Failed s) := by
  unfold loadAndParseAt
  rw [h]

/-- A need-more-bytes signal surfaces from the buffered loader as the
`NoEnoughBytes` error: the whole input is already in memory, so the need can
never be satisfied. -/
theorem loadAndParseAt_need {α : Type} (input : List Nat)
    (f : List Nat → Nat → Except ParsingError α) (p n : Nat)
    (h : f input p = .error (.Need n)) :
    loadAndParseAt input f p = (.error .NoEnoughBytes : Except ParsedError α) := by
  unfold loadAndParseAt
  rw [h]

/-- The doc-type step succeeds exactly when `parse_ebml_doc_type` does. -/
theorem docTypeStep_eq (inp : List Nat) (r : String × Nat)
    (h : parse_ebml_doc_type inp 0 = .ok r) : docTypeStep inp = .ok r := by
  unfold docTypeStep
  rw [h]
  rfl

/-- The Segment step succeeds when the next element is the Segment. -/
theorem segmentStep_ok (inp : List Nat) (q : Nat) (hd : ElementHeader) (p1 : Nat)
    (h : nextElementHeader inp q = .ok (hd, p1)) (hid : hd.id = SEGMENT_ID) :
    segmentStep inp q = .ok p1 := by
  unfold segmentStep
  rw [h]
  dsimp only
  rw [hid]
  simp

/-- When the fallback scan for the Info element runs out of bytes, the
fallback Info closure propagates the need. -/
theorem infoFallbackStep_need (x : List Nat) (q n : Nat)
    (h : travel_while x (fun h => h.id ≠ INFO_ID) q = .error (.Need n)) :
    infoFallbackStep x q = .error (.Need n) := by
  unfold infoFallbackStep
  rw [h]
  rfl

/-- The fallback branch aborts with the Info step's error (the `?` operator
at src/ebml/webm.rs line 108). -/
theorem parseWebmFallback_infoErr (input : List Nat) (pos : Nat)
    (base : EbmlFileInfo) (e : ParsedError)
    (h : loadAndParseAt input infoFallbackStep pos = .error e) :
    parseWebmFallback input pos base = .error e := by
  unfold parseWebmFallback
  rw [h]

/-- Orchestrator decomposition: with a decoded doc type, a located Segment, a
failed seek resolution and a fallback result, `parse_webm` returns the
fallback result. -/
theorem parse_webm_eq_fallback (input : List Nat) (docType : String)
    (pos0 pos : Nat) (e : Except ParsedError EbmlFileInfo) (s : String)
    (h1 : loadAndParse input docTypeStep = .ok (docType, pos0))
    (h2 : loadAndParseAt input segmentStep pos0 = .ok pos)
    (h3 : loadAndParseAt input parse_seeks pos = .error (.Failed s))
    (h4 : parseWebmFallback input pos ⟨docType, ⟨0, 0⟩, ⟨0, 0⟩⟩ = e) :
    parse_webm input = e := by
  unfold parse_webm
  rw [h1]
  dsimp only
  rw [h2]
  dsimp only
  rw [h3]
  dsimp only
  exact h4

/-- Doc-type decoding of the C1 minimal file: the EBML header element spans
the first twelve bytes and declares doc type "webm". -/
theorem c1_doc (vb : List Nat) :
    parse_ebml_doc_type
      (0x1A :: 0x45 :: 0xDF :: 0xA3 :: 0x87 :: 0x42 :: 0x82 :: 0x84 :: 0x77 ::
        0x65 :: 0x62 :: 0x6D :: 0x18 :: 0x53 :: 0x80 :: 0x67 ::
        (0x82 + vb.length) :: 0xEC :: (0x80 + vb.length) :: vb) 0 = .ok ("webm", 12) := by
  have hh : nextElementHeader
      (0x1A :: 0x45 :: 0xDF :: 0xA3 :: 0x87 :: 0x42 :: 0x82 :: 0x84 :: 0x77 ::
        0x65 :: 0x62 :: 0x6D :: 0x18 :: 0x53 :: 0x80 :: 0x67 ::
        (0x82 + vb.length) :: 0xEC :: (0x80 + vb.length) :: vb) 0 = .ok (⟨0x1A45DFA3, 5, 7⟩, 5) := by
    simp only [nextElementHeader, vintWithMarker, vintSize, vintLen, sliceBytes,
      beBytes, getAsU64, getAsF64, List.length_cons, List.length_nil,
      List.getD_cons_zero, List.getD_cons_succ, List.drop_zero, List.drop_succ_cons,
      List.drop_nil, List.take_succ_cons, List.take_zero, List.take_nil, List.getD_nil]
    repeat (first | rw [if_neg (by omega)] | norm_num [beBytes])
  have hchunk : sliceBytes
      (0x1A :: 0x45 :: 0xDF :: 0xA3 :: 0x87 :: 0x42 :: 0x82 :: 0x84 :: 0x77 ::
        0x65 :: 0x62 :: 0x6D :: 0x18 :: 0x53 :: 0x80 :: 0x67 ::
        (0x82 + vb.length) :: 0xEC :: (0x80 + vb.length) :: vb) 5 7 = [0x42, 0x82, 0x84, 0x77, 0x65, 0x62, 0x6D] := by
    unfold sliceBytes
    rw [show (0x1A :: 0x45 :: 0xDF :: 0xA3 :: 0x87 :: 0x42 :: 0x82 :: 0x84 :: 0x77 ::
        0x65 :: 0x62 :: 0x6D :: 0x18 :: 0x53 :: 0x80 :: 0x67 ::
        (0x82 + vb.length) :: 0xEC :: (0x80 + vb.length) :: vb : List Nat).drop 5 =
        0x42 :: 0x82 :: 0x84 :: 0x77 :: 0x65 :: 0x62 :: 0x6D :: 0x18 :: 0x53 ::
        0x80 :: 0x67 :: (0x82 + vb.length) :: 0xEC :: (0x80 + vb.length) :: vb
      from rfl]
    simp
  unfold parse_ebml_doc_type
  rw [hh]
  dsimp only
  rw [if_neg (show ¬(0x1A45DFA3 : Nat) ≠ EBML_HEADER_ID from by decide)]
  rw [if_neg (show ¬((0x1A :: 0x45 :: 0xDF :: 0xA3 :: 0x87 :: 0x42 :: 0x82 :: 0x84 :: 0x77 ::
        0x65 :: 0x62 :: 0x6D :: 0x18 :: 0x53 :: 0x80 :: 0x67 ::
        (0x82 + vb.length) :: 0xEC :: (0x80 + vb.length) :: vb : List Nat).length - 5 < 7) by simp only [List.length_cons] <;> omega)]
  rw [hchunk]
  rw [show findDocTypeF
      (([0x42, 0x82, 0x84, 0x77, 0x65, 0x62, 0x6D] : List Nat).length + 1)
      [0x42, 0x82, 0x84, 0x77, 0x65, 0x62, 0x6D] 0 = .ok [0x77, 0x65, 0x62, 0x6D]
    from by decide]
  dsimp only
  rw [show String.mk ([0x77, 0x65, 0x62, 0x6D].map Char.ofNat) = "webm"
    from by decide]

/-- Segment header decoding of the C1 minimal file at offset 12. -/
theorem c1_seg (vb : List Nat) :
    nextElementHeader
      (0x1A :: 0x45 :: 0xDF :: 0xA3 :: 0x87 :: 0x42 :: 0x82 :: 0x84 :: 0x77 ::
        0x65 :: 0x62 :: 0x6D :: 0x18 :: 0x53 :: 0x80 :: 0x67 ::
        (0x82 + vb.length) :: 0xEC :: (0x80 + vb.length) :: vb) 12 = .ok (⟨0x18538067, 5, vb.length + 2⟩, 17) := by
  have hw : vintWithMarker
      (0x18 :: 0x53 :: 0x80 :: 0x67 :: (0x82 + vb.length) :: 0xEC ::
        (0x80 + vb.length) :: vb) 0 = .ok (0x18538067, 4) := by
    simp only [nextElementHeader, vintWithMarker, vintSize, vintLen, sliceBytes,
      beBytes, getAsU64, getAsF64, List.length_cons, List.length_nil,
      List.getD_cons_zero, List.getD_cons_succ, List.drop_zero, List.drop_succ_cons,
      List.drop_nil, List.take_succ_cons, List.take_zero, List.take_nil, List.getD_nil]
    repeat (first | rw [if_neg (by omega)] | norm_num [beBytes])
  have hhR1 : nextElementHeader
      (0x18 :: 0x53 :: 0x80 :: 0x67 :: (0x82 + vb.length) :: 0xEC ::
        (0x80 + vb.length) :: vb) 0 = .ok (⟨0x18538067, 5, vb.length + 2⟩, 5) := by
    unfold nextElementHeader
    rw [hw]
    dsimp only
    rw [vintSize_one (0x18 :: 0x53 :: 0x80 :: 0x67 :: (0x82 + vb.length) :: 0xEC ::
        (0x80 + vb.length) :: vb) 4 (0x82 + vb.length) (by omega) (by simp)
      (by simp only [List.length_cons] <;> omega)]
    dsimp only
    norm_num
    omega
  rw [nextElementHeader_drop (0x1A :: 0x45 :: 0xDF :: 0xA3 :: 0x87 :: 0x42 :: 0x82 :: 0x84 :: 0x77 ::
        0x65 :: 0x62 :: 0x6D :: 0x18 :: 0x53 :: 0x80 :: 0x67 ::
        (0x82 + vb.length) :: 0xEC :: (0x80 + vb.length) :: vb) 12 0 12
    (by simp only [List.length_cons] <;> omega) (by omega)]
  rw [show (0x1A :: 0x45 :: 0xDF :: 0xA3 :: 0x87 :: 0x42 :: 0x82 :: 0x84 :: 0x77 ::
        0x65 :: 0x62 :: 0x6D :: 0x18 :: 0x53 :: 0x80 :: 0x67 ::
        (0x82 + vb.length) :: 0xEC :: (0x80 + vb.length) :: vb : List Nat).drop 12 = (0x18 :: 0x53 :: 0x80 :: 0x67 :: (0x82 + vb.length) :: 0xEC ::
        (0x80 + vb.length) :: vb) from rfl]
  rw [hhR1]

/-- Header decoding of the Void element at offset 17 of the C1 minimal file. -/
theorem c1_hdr17 (vb : List Nat) :
    nextElementHeader
      (0x1A :: 0x45 :: 0xDF :: 0xA3 :: 0x87 :: 0x42 :: 0x82 :: 0x84 :: 0x77 ::
        0x65 :: 0x62 :: 0x6D :: 0x18 :: 0x53 :: 0x80 :: 0x67 ::
        (0x82 + vb.length) :: 0xEC :: (0x80 + vb.length) :: vb) 17 = .ok (⟨0xEC, 2, vb.length⟩, 19) := by
  have hhR2 : nextElementHeader
      (0xEC :: (0x80 + vb.length) :: vb) 0 = .ok (⟨0xEC, 2, vb.length⟩, 2) := by
    unfold nextElementHeader
    rw [vintWithMarker_one (0xEC :: (0x80 + vb.length) :: vb) 0 0xEC (by omega) (by simp) (by simp only [List.length_cons] <;> omega)]
    dsimp only
    rw [vintSize_one (0xEC :: (0x80 + vb.length) :: vb) 1 (0x80 + vb.length) (by omega) (by simp)
      (by simp only [List.length_cons] <;> omega)]
    dsimp only
    norm_num
  rw [nextElementHeader_drop (0x1A :: 0x45 :: 0xDF :: 0xA3 :: 0x87 :: 0x42 :: 0x82 :: 0x84 :: 0x77 ::
        0x65 :: 0x62 :: 0x6D :: 0x18 :: 0x53 :: 0x80 :: 0x67 ::
        (0x82 + vb.length) :: 0xEC :: (0x80 + vb.length) :: vb) 17 0 17 (by simp only [List.length_cons] <;> omega) (by omega)]
  rw [show (0x1A :: 0x45 :: 0xDF :: 0xA3 :: 0x87 :: 0x42 :: 0x82 :: 0x84 :: 0x77 ::
        0x65 :: 0x62 :: 0x6D :: 0x18 :: 0x53 :: 0x80 :: 0x67 ::
        (0x82 + vb.length) :: 0xEC :: (0x80 + vb.length) :: vb : List Nat).drop 17 = (0xEC :: (0x80 + vb.length) :: vb) from rfl]
  rw [hhR2]

/-- At the end of the C1 minimal buffer nothing more can be decoded: the next
header read reports a need for more bytes. -/
theorem c1_end (vb : List Nat) :
    nextElementHeader
      (0x1A :: 0x45 :: 0xDF :: 0xA3 :: 0x87 :: 0x42 :: 0x82 :: 0x84 :: 0x77 ::
        0x65 :: 0x62 :: 0x6D :: 0x18 :: 0x53 :: 0x80 :: 0x67 ::
        (0x82 + vb.length) :: 0xEC :: (0x80 + vb.length) :: vb) (19 + vb.length) = .error (.Need 1) := by
  have hv : vintWithMarker
      (0x1A :: 0x45 :: 0xDF :: 0xA3 :: 0x87 :: 0x42 :: 0x82 :: 0x84 :: 0x77 ::
        0x65 :: 0x62 :: 0x6D :: 0x18 :: 0x53 :: 0x80 :: 0x67 ::
        (0x82 + vb.length) :: 0xEC :: (0x80 + vb.length) :: vb) (19 + vb.length) = .error (.Need 1) := by
    unfold vintWithMarker
    rw [if_pos (show (0x1A :: 0x45 :: 0xDF :: 0xA3 :: 0x87 :: 0x42 :: 0x82 :: 0x84 :: 0x77 ::
        0x65 :: 0x62 :: 0x6D :: 0x18 :: 0x53 :: 0x80 :: 0x67 ::
        (0x82 + vb.length) :: 0xEC :: (0x80 + vb.length) :: vb : List Nat).length ≤ 19 + vb.length by simp only [List.length_cons] <;> omega)]
  unfold nextElementHeader
  rw [hv]

/-- The C1 minimal file has no SeekHead: the search scans past the Void
element, exhausts the buffer and reports not-found. -/
theorem c1_find (vb : List Nat) :
    find_element_by_id
      (0x1A :: 0x45 :: 0xDF :: 0xA3 :: 0x87 :: 0x42 :: 0x82 :: 0x84 :: 0x77 ::
        0x65 :: 0x62 :: 0x6D :: 0x18 :: 0x53 :: 0x80 :: 0x67 ::
        (0x82 + vb.length) :: 0xEC :: (0x80 + vb.length) :: vb) SEEK_HEAD_ID 17 = .error (.Failed "element not found") := by
  have hlen : (0x1A :: 0x45 :: 0xDF :: 0xA3 :: 0x87 :: 0x42 :: 0x82 :: 0x84 :: 0x77 ::
        0x65 :: 0x62 :: 0x6D :: 0x18 :: 0x53 :: 0x80 :: 0x67 ::
        (0x82 + vb.length) :: 0xEC :: (0x80 + vb.length) :: vb : List Nat).length = vb.length + 19 := by
    simp only [List.length_cons] <;> omega
  unfold find_element_by_id
  rw [hlen]
  rw [findByIdF_step,
    if_neg (show ¬(0x1A :: 0x45 :: 0xDF :: 0xA3 :: 0x87 :: 0x42 :: 0x82 :: 0x84 :: 0x77 ::
        0x65 :: 0x62 :: 0x6D :: 0x18 :: 0x53 :: 0x80 :: 0x67 ::
        (0x82 + vb.length) :: 0xEC :: (0x80 + vb.length) :: vb : List Nat).length ≤ 17 by simp only [List.length_cons] <;> omega), c1_hdr17 vb]
  dsimp only
  rw [if_neg (show ¬(0xEC : Nat) = SEEK_HEAD_ID from by decide)]
  rw [if_neg (show ¬(0x1A :: 0x45 :: 0xDF :: 0xA3 :: 0x87 :: 0x42 :: 0x82 :: 0x84 :: 0x77 ::
        0x65 :: 0x62 :: 0x6D :: 0x18 :: 0x53 :: 0x80 :: 0x67 ::
        (0x82 + vb.length) :: 0xEC :: (0x80 + vb.length) :: vb : List Nat).length - 19 < vb.length by simp only [List.length_cons] <;> omega)]
  rw [show vb.length + 19 = (vb.length + 18) + 1 from rfl]
  rw [findByIdF_step,
    if_pos (show (0x1A :: 0x45 :: 0xDF :: 0xA3 :: 0x87 :: 0x42 :: 0x82 :: 0x84 :: 0x77 ::
        0x65 :: 0x62 :: 0x6D :: 0x18 :: 0x53 :: 0x80 :: 0x67 ::
        (0x82 + vb.length) :: 0xEC :: (0x80 + vb.length) :: vb : List Nat).length ≤ 19 + vb.length by simp only [List.length_cons] <;> omega)]

/-- The fallback scan for the Info element skips the Void element, exhausts
the buffer and signals a need for more bytes. -/
theorem c1_travel_info (vb : List Nat) :
    travel_while (0x1A :: 0x45 :: 0xDF :: 0xA3 :: 0x87 :: 0x42 :: 0x82 :: 0x84 :: 0x77 ::
        0x65 :: 0x62 :: 0x6D :: 0x18 :: 0x53 :: 0x80 :: 0x67 ::
        (0x82 + vb.length) :: 0xEC :: (0x80 + vb.length) :: vb) (fun h => h.id ≠ INFO_ID) 17 = .error (.Need 1) := by
  have hlen : (0x1A :: 0x45 :: 0xDF :: 0xA3 :: 0x87 :: 0x42 :: 0x82 :: 0x84 :: 0x77 ::
        0x65 :: 0x62 :: 0x6D :: 0x18 :: 0x53 :: 0x80 :: 0x67 ::
        (0x82 + vb.length) :: 0xEC :: (0x80 + vb.length) :: vb : List Nat).length = vb.length + 19 := by
    simp only [List.length_cons] <;> omega
  unfold travel_while
  rw [hlen]
  rw [travelWhileF_step, c1_hdr17 vb]
  dsimp only
  rw [if_pos (show (decide ((0xEC : Nat) ≠ INFO_ID)) = true from by decide)]
  rw [if_neg (show ¬(0x1A :: 0x45 :: 0xDF :: 0xA3 :: 0x87 :: 0x42 :: 0x82 :: 0x84 :: 0x77 ::
        0x65 :: 0x62 :: 0x6D :: 0x18 :: 0x53 :: 0x80 :: 0x67 ::
        (0x82 + vb.length) :: 0xEC :: (0x80 + vb.length) :: vb : List Nat).length - 19 < vb.length by simp only [List.length_cons] <;> omega)]
  rw [show vb.length + 19 = (vb.length + 18) + 1 from rfl]
  rw [travelWhileF_step, c1_end vb]

/-- Without a SeekHead, `parse_seeks` on the C1 minimal file fails with the
not-found condition, sending the orchestrator to the fallback scan. -/
theorem c1_seeks (vb : List Nat) :
    parse_seeks
      (0x1A :: 0x45 :: 0xDF :: 0xA3 :: 0x87 :: 0x42 :: 0x82 :: 0x84 :: 0x77 ::
        0x65 :: 0x62 :: 0x6D :: 0x18 :: 0x53 :: 0x80 :: 0x67 ::
        (0x82 + vb.length) :: 0xEC :: (0x80 + vb.length) :: vb) 17 = .error (.Failed "element not found") := by
  unfold parse_seeks
  rw [c1_find vb]

/-- C1 counterexample: the concrete 19-byte minimal WebM file (EBML header
declaring doc type "webm", Segment whose payload is a single empty Void
element) is rejected by `parse_webm` with the fatal `NoEnoughBytes` error
instead of yielding the claimed all-default `Ok`. -/
theorem c1_counterexample :
    parse_webm
        [0x1A, 0x45, 0xDF, 0xA3, 0x87, 0x42, 0x82, 0x84, 0x77, 0x65, 0x62,
         0x6D, 0x18, 0x53, 0x80, 0x67, 0x82, 0xEC, 0x80] =
        .error .NoEnoughBytes ∧
      (.error .NoEnoughBytes : Except ParsedError EbmlFileInfo) ≠
        .ok ⟨"webm", ⟨0, 0⟩, ⟨0, 0⟩⟩ :=
  ⟨parse_webm_eq_fallback _ "webm" 12 17 (.error .NoEnoughBytes) "element not found"
    (loadAndParse_ok _ _ _ (docTypeStep_eq _ _ (c1_doc [])))
    (loadAndParseAt_ok _ _ _ _ (segmentStep_ok _ _ _ _ (c1_seg []) rfl))
    (loadAndParseAt_failed _ _ _ _ (c1_seeks []))
    (parseWebmFallback_infoErr _ _ _ _
      (loadAndParseAt_need _ _ _ _ (infoFallbackStep_need _ _ _ (c1_travel_info [])))),
   by decide⟩

/-- C1 (amended): a fully buffered minimal WebM file whose Segment payload
consists of a single Void element (arbitrary payload `vb`) makes `parse_webm`
return the `NoEnoughBytes` error rather than `Ok` with defaults: the seek
table is absent, and the fallback linear scan for Info exhausts the buffer
with an unsatisfiable need-more-bytes signal that the `?` operator
propagates out of `parse_webm`. -/
theorem c1_minimal_file_errors (vb : List Nat) (hvb : vb.length ≤ 100) :
    parse_webm
      (0x1A :: 0x45 :: 0xDF :: 0xA3 :: 0x87 :: 0x42 :: 0x82 :: 0x84 :: 0x77 ::
        0x65 :: 0x62 :: 0x6D :: 0x18 :: 0x53 :: 0x80 :: 0x67 ::
        (0x82 + vb.length) :: 0xEC :: (0x80 + vb.length) :: vb) = .error .NoEnoughBytes :=
  parse_webm_eq_fallback _ "webm" 12 17 (.error .NoEnoughBytes) "element not found"
    (loadAndParse_ok _ _ _ (docTypeStep_eq _ _ (c1_doc vb)))
    (loadAndParseAt_ok _ _ _ _ (segmentStep_ok _ _ _ _ (c1_seg vb) rfl))
    (loadAndParseAt_failed _ _ _ _ (c1_seeks vb))
    (parseWebmFallback_infoErr _ _ _ _
      (loadAndParseAt_need _ _ _ _ (infoFallbackStep_need _ _ _ (c1_travel_info vb))))

/-- C1 witness: the amended theorem applied at a Void payload of one byte. -/
theorem c1_minimal_file_errors_witness :
    parse_webm
        [0x1A, 0x45, 0xDF, 0xA3, 0x87, 0x42, 0x82, 0x84, 0x77, 0x65, 0x62,
         0x6D, 0x18, 0x53, 0x80, 0x67, 0x83, 0xEC, 0x81, 0x00] =
      .error .NoEnoughBytes :=
  c1_minimal_file_errors [0x00] (by decide)
